import Mathlib

/-!
Verification development for `snapper-rollback.py`.

The Python program is shallowly embedded: pure helpers become Lean functions,
the filesystem-touching code becomes explicit state passing over an `FS` record
together with an event trace, and Python exceptions become `Except` values.
The `while` loop of `getNextSnapshotNumber` is fuel-indexed (`none` means the
loop has not finished within the given fuel; a result that is `none` for every
fuel is a non-terminating run).
-/

namespace SnapperRollback

/-- Decimal digit accumulator used by `pyInt`: consumes the remaining
characters, failing on the first non-digit (abstraction of CPython's
ASCII-decimal `int()` parsing; whitespace stripping and `_` separators are
not modelled, no claim depends on them). -/
def pyDigitsCore : List Char → Nat → Option Nat
  | [], acc => some acc
  | c :: cs, acc =>
    if c.isDigit then pyDigitsCore cs (acc * 10 + (c.toNat - 48)) else none

/-- Python `int(s)` on a string: optional sign followed by at least one
decimal digit; `none` models a raised `ValueError`. -/
def pyInt (s : String) : Option Int :=
  match s.toList with
  | [] => none
  | '-' :: cs =>
    match cs with
    | [] => none
    | _ => (pyDigitsCore cs 0).map fun n => -(n : Int)
  | '+' :: cs =>
    match cs with
    | [] => none
    | _ => (pyDigitsCore cs 0).map fun n => (n : Int)
  | cs => (pyDigitsCore cs 0).map fun n => (n : Int)

/-- Python `str` on an integer (decimal, `-` sign for negatives). -/
def pyStr (n : Int) : String := toString n

/-- Python `xs[-off]` for a list of strings: `none` models a raised
`IndexError`.  A negative index `-off` is valid exactly when
`1 ≤ off ≤ len xs` and then denotes position `len xs - off`; `xs[-0]` is
`xs[0]`. -/
def pyNegIndex (xs : List String) (off : Nat) : Option String :=
  if off = 0 then xs[0]?
  else if off ≤ xs.length then xs[xs.length - off]?
  else none

/-- The `while` loop of `getNextSnapshotNumber` (source lines 191-201),
fuel-indexed.  State: `snap_id_offset`, `snapshot_dir_length` (an `Int`,
because the source decrements it below zero on an empty listing) and the
accumulator `subvol_main_snapshot_number` (called `num` here).  The bare
`except:` of the source catches both the `IndexError` of `snapshot_dir[-off]`
and the `ValueError` of `int(...)`, which is the `none` case of the
`Option.bind` below.  After the `try`/`except`, the source checks
`snapshot_dir_length == 0` and, if so, overwrites the accumulator with `"1"`
(emitting a warning). -/
def getNextLoop (snapshot_dir : List String) :
    Nat → Int → String → Nat → Option String
  | _, _, num, 0 => if num ≠ "" then some num else none
  | snap_id_offset, snapshot_dir_length, num, fuel + 1 =>
    if num ≠ "" then some num
    else
      match (pyNegIndex snapshot_dir snap_id_offset).bind pyInt with
      | some n =>
        if snapshot_dir_length = 0 then
          getNextLoop snapshot_dir snap_id_offset snapshot_dir_length "1" fuel
        else
          getNextLoop snapshot_dir snap_id_offset snapshot_dir_length
            (pyStr (n + 1)) fuel
      | none =>
        if snapshot_dir_length - 1 = 0 then
          getNextLoop snapshot_dir (snap_id_offset + 1)
            (snapshot_dir_length - 1) "1" fuel
        else
          getNextLoop snapshot_dir (snap_id_offset + 1)
            (snapshot_dir_length - 1) num fuel

/-- `getNextSnapshotNumber` (source lines 185-202) as a function of the
listing returned by `os.listdir("/.snapshots")`; the `os.listdir` call itself
is modelled at the pipeline level (`getNextSnapshotNumberFS`). -/
def getNextSnapshotNumber (snapshot_dir : List String) (fuel : Nat) :
    Option String :=
  getNextLoop snapshot_dir 1 (Int.ofNat snapshot_dir.length) "" fuel

example : getNextSnapshotNumber ["5", "3"] 10 = some "4" := by decide
example : getNextSnapshotNumber ["3", "5"] 10 = some "6" := by decide
example : getNextSnapshotNumber ["a", "b"] 10 = some "1" := by decide
example : getNextSnapshotNumber ["a", "7", "x"] 10 = some "8" := by decide
example : getNextSnapshotNumber [] 50 = none := by decide

/-! ## Filesystem model

The filesystem state visible to the program: btrfs subvolumes (a path keyed
association list whose values are abstract content identifiers), plain
directories, `info.xml` descriptor files (stored structurally), directory
listings as returned by `os.listdir`, the set of mount points, and the
filesystem's default subvolume. -/

/-- The structured content of a snapper `info.xml` descriptor.  The `date`
field stands for the text of the `<date>` element; the XML encoding itself is
external plumbing. -/
structure SnapshotRecord where
  type_ : String
  num : String
  date : String
  description : String
  cleanup : String
deriving DecidableEq, Repr

structure FS where
  subvols : List (String × Nat)
  dirs : List String
  files : List (String × SnapshotRecord)
  listings : List (String × List String)
  mounts : List String
  defaultSubvol : Option String
deriving DecidableEq, Repr

/-- First-match association-list lookup (leftmost binding wins, mirroring a
map whose latest insertion is consed on the front). -/
def lookupStr {α : Type} : List (String × α) → String → Option α
  | [], _ => none
  | (k2, v) :: rest, k => if k2 == k then some v else lookupStr rest k

/-- Remove every binding of a key. -/
def eraseKey {α : Type} (m : List (String × α)) (k : String) :
    List (String × α) :=
  m.filter fun kv => kv.1 != k

/-- `os.path.isdir p`: true when `p` is a plain directory or a btrfs
subvolume (subvolumes are directories). -/
def FS.isdir (fs : FS) (p : String) : Bool :=
  fs.dirs.contains p || (lookupStr fs.subvols p).isSome

/-- `pathlib`'s `/` on string paths: joining with an absolute right operand
discards the left operand (this is load-bearing in
`createNextSubvolumeNumber`, whose `dest` argument is already an absolute
path). -/
def pathJoin (a b : String) : String :=
  if b.data.head? == some '/' then b else a ++ "/" ++ b

/-- Python exceptions (plus `SystemExit` carrying the `sys.exit` code). -/
inductive Err where
  | configError
  | fileNotFound (path : String)
  | btrfsError
  | osError (msg : String)
  | permissionError (msg : String)
  | systemExit (code : Nat)
deriving DecidableEq, Repr

/-- Observable actions of a run, in order.  The first six mutate the
filesystem; `listdir` and `parseXML` are reads; the rest are log lines. -/
inductive Event where
  | logInfo (msg : String)
  | logWarning (msg : String)
  | logError (msg : String)
  | logFatal (msg : String)
  | mkdir (path : String)
  | mountCmd (cmd : String)
  | writeFile (path : String)
  | rename (src dst : String)
  | createSnapshot (src dst : String)
  | setDefault (path : String)
  | listdir (path : String)
  | parseXML (path : String)
deriving DecidableEq, Repr

/-- Events that mutate the filesystem. -/
def Event.isMutation : Event → Bool
  | .mkdir _ | .mountCmd _ | .writeFile _ | .rename _ _
  | .createSnapshot _ _ | .setDefault _ => true
  | _ => false

/-- Events that mutate a btrfs subvolume or the default-subvolume setting
(the rename/snapshot/set-default sequence of the orchestrator). -/
def Event.isSubvolMutation : Event → Bool
  | .rename _ _ | .createSnapshot _ _ | .setDefault _ => true
  | _ => false

/-- Injected outcomes of the calls whose success depends on the outside world
(`os.makedirs`, the shelled-out `mount`, `open(...,"w")`, and the two
`btrfsutil` calls).  `true` means the call raises. -/
structure Faults where
  mkdirFails : Bool
  mountFails : Bool
  writeFails : Bool
  snapshotFails : Bool
  setDefaultFails : Bool
deriving DecidableEq, Repr

deriving instance DecidableEq for Except

/-- Result of one embedded Python call: the raised exception or return value,
the filesystem afterwards, and the events of the call in order. -/
abbrev Res (α : Type) := Except Err α × FS × List Event

/-! ## The embedded program functions -/

/-- `ensure_dir(dirpath, dry_run)` (source lines 115-124): create the
directory unless it already exists; in dry-run mode just log the `mkdir`.  An
`OSError` from `os.makedirs` is logged fatal and re-raised. -/
def ensure_dir (fs : FS) (flt : Faults) (dirpath : String) (dry_run : Bool) :
    Res Unit :=
  if !fs.isdir dirpath then
    if dry_run then
      (.ok (), fs, [.logInfo ("mkdir -p " ++ dirpath)])
    else if flt.mkdirFails then
      (.error (.osError dirpath), fs,
        [.logFatal ("error creating dir " ++ dirpath)])
    else
      (.ok (), { fs with dirs := dirpath :: fs.dirs }, [.mkdir dirpath])
  else (.ok (), fs, [])

/-- `mount_subvol_id5(target, source, dry_run)` (source lines 127-143):
ensure the mountpoint directory exists, then — unless `target` is already a
mount point — shell out to `mount -o subvolid=5 <source> <target>`; a non-zero
result raises `OSError`.  In dry-run mode the command is only logged and the
return code is taken to be 0. -/
def mount_subvol_id5 (fs : FS) (flt : Faults) (target : String)
    (source : Option String) (dry_run : Bool) : Res Unit :=
  match ensure_dir fs flt target dry_run with
  | (.error e, fs1, ev1) => (.error e, fs1, ev1)
  | (.ok _, fs1, ev1) =>
    if !fs1.mounts.contains target then
      let shellcmd :=
        "mount -o subvolid=5 " ++ (source.getD "") ++ " " ++ target
      if dry_run then
        (.ok (), fs1, ev1 ++ [.logInfo shellcmd])
      else if flt.mountFails then
        (.error (.osError ("unable to mount " ++ target)), fs1,
          ev1 ++ [.mountCmd shellcmd])
      else
        (.ok (), { fs1 with mounts := target :: fs1.mounts },
          ev1 ++ [.mountCmd shellcmd])
    else (.ok (), fs1, ev1)

/-- The descriptor record assembled by `generateXML` (source lines 57-99):
`type` is the literal `"single"`, `cleanup` the literal `"number"`, `date`
the current UTC time, and `description` embeds the source snapshot id and
the source's creation date converted to local time. -/
def generateXMLRecord (nowUTC : String) (num src_id snapshot_date : String) :
    SnapshotRecord :=
  { type_ := "single"
    num := num
    date := nowUTC
    description :=
      "snapper-rollback: Rollback to snapshot #" ++ src_id ++
        " (snapshot creation date: " ++ snapshot_date ++ ")"
    cleanup := "number" }

/-- `generateXML(file_name, num, src_id, dry_run)` (source lines 55-106):
unconditionally parse `/.snapshots/<src_id>/info.xml` (a raised
`FileNotFoundError` when the file is absent — note this read happens even in
dry-run mode), convert its `<date>` to local time (`tzConv` stands for
`astimezone(tz.tzlocal()).strftime(...)`), assemble the record, and write it
— or, in dry-run mode, only log the write.  A `PermissionError` from
`open(file_name, "w")` is modelled by `flt.writeFails`. -/
def generateXML (fs : FS) (flt : Faults) (file_name : String)
    (num src_id : String) (nowUTC : String) (tzConv : String → String)
    (dry_run : Bool) : Res Unit :=
  let srcPath := "/.snapshots/" ++ src_id ++ "/info.xml"
  match lookupStr fs.files srcPath with
  | none => (.error (.fileNotFound srcPath), fs, [.parseXML srcPath])
  | some srcRec =>
    let record := generateXMLRecord nowUTC num src_id (tzConv srcRec.date)
    if dry_run then
      (.ok (), fs,
        [.parseXML srcPath, .logInfo ("Writing info.xml to " ++ file_name)])
    else if flt.writeFails then
      (.error (.permissionError file_name), fs, [.parseXML srcPath])
    else
      (.ok (), { fs with files := (file_name, record) :: fs.files },
        [.parseXML srcPath, .writeFile file_name])

/-- The `os.listdir(path="/.snapshots")` read of `getNextSnapshotNumber`
(source line 188) followed by the loop: the listing comes from the fixed
absolute path `/.snapshots`, regardless of configuration.  `.ok none` means
the loop ran out of fuel (non-termination). -/
def getNextSnapshotNumberFS (fs : FS) (fuel : Nat) :
    Except Err (Option String) × List Event :=
  match lookupStr fs.listings "/.snapshots" with
  | none => (.error (.fileNotFound "/.snapshots"), [.listdir "/.snapshots"])
  | some listing =>
    (.ok (getNextSnapshotNumber listing fuel), [.listdir "/.snapshots"])

/-- `createNextSubvolumeNumber(mountpoint, config, dest, dry_run)` (source
lines 205-207): `ensure_dir` on `mountpoint / subvol_snapshots / dest`.  The
caller passes an absolute path as `dest`, so by `pathJoin` the target
collapses to `dest` itself. -/
def createNextSubvolumeNumber (fs : FS) (flt : Faults)
    (mountpoint subvol_snapshots dest : String) (dry_run : Bool) : Res Unit :=
  ensure_dir fs flt (pathJoin (pathJoin mountpoint subvol_snapshots) dest)
    dry_run

/-- Python `str` of an optional device (`None` prints as `"None"`), used in
the `rollback` error message. -/
def devStr : Option String → String
  | none => "None"
  | some d => d

/-- The `except btrfsutil.BtrfsUtilError` handler of `rollback` (source lines
173-182): log the error, and if the main path is now vacant, move the
relocated subvolume back.  The restoring `os.rename` itself is outside any
handler, so its `FileNotFoundError` would propagate out of `rollback`. -/
def rollbackCompensate (fs : FS) (ev : List Event)
    (subvol_main subvol_main_newname : String) (dry_run : Bool) : Res Unit :=
  if fs.isdir subvol_main then (.ok (), fs, ev)
  else
    let ev := ev ++
      [.logInfo ("Moving " ++ subvol_main_newname ++ " back to " ++
        subvol_main)]
    if dry_run then
      (.ok (), fs,
        ev ++ [.logWarning ("mv " ++ subvol_main_newname ++ " " ++
          subvol_main)])
    else
      match lookupStr fs.subvols subvol_main_newname with
      | none => (.error (.fileNotFound subvol_main_newname), fs, ev)
      | some v =>
        (.ok (),
          { fs with subvols :=
              (subvol_main, v) :: eraseKey fs.subvols subvol_main_newname },
          ev ++ [.rename subvol_main_newname subvol_main])

/-- `rollback(subvol_main, subvol_main_newname, subvol_rollback_src, dev,
dry_run)` (source lines 146-182).  Real mode: `os.rename` the main subvolume
(raising `FileNotFoundError` when nothing is at the main path — caught and
only logged), then `btrfsutil.create_snapshot` (raising `BtrfsUtilError`
when injected by `flt.snapshotFails`, when the source subvolume is absent, or
when the destination is occupied), then `btrfsutil.set_default_subvolume`
(raising when injected).  A `BtrfsUtilError` lands in `rollbackCompensate`.
Dry-run mode only logs the three commands.  The success log's
`dry_run and "[DRY-RUN MODE] "` renders as `"False"` when `dry_run` is
false, as in the source. -/
def rollback (fs : FS) (flt : Faults)
    (subvol_main subvol_main_newname subvol_rollback_src : String)
    (dev : Option String) (dry_run : Bool) : Res Unit :=
  if dry_run then
    (.ok (), fs,
      [.logInfo ("mv " ++ subvol_main ++ " " ++ subvol_main_newname),
       .logInfo ("btrfs subvolume snapshot " ++ subvol_rollback_src ++ " " ++
         subvol_main),
       .logInfo ("btrfs subvolume set-default " ++ subvol_main),
       .logInfo ("[DRY-RUN MODE] Rollback to " ++ subvol_rollback_src ++
         " complete. Reboot to finish")])
  else
    match lookupStr fs.subvols subvol_main with
    | none =>
      (.ok (), fs,
        [.logFatal ("Missing " ++ subvol_main ++ ": Is " ++ devStr dev ++
          " mounted with the option subvolid=5?")])
    | some v =>
      let fs1 : FS :=
        { fs with subvols :=
            (subvol_main_newname, v) :: eraseKey fs.subvols subvol_main }
      let ev1 : List Event := [.rename subvol_main subvol_main_newname]
      match lookupStr fs1.subvols subvol_rollback_src with
      | none =>
        rollbackCompensate fs1 (ev1 ++ [.logError "{e}"]) subvol_main
          subvol_main_newname dry_run
      | some w =>
        if flt.snapshotFails || fs1.isdir subvol_main then
          rollbackCompensate fs1 (ev1 ++ [.logError "{e}"]) subvol_main
            subvol_main_newname dry_run
        else
          let fs2 : FS := { fs1 with subvols := (subvol_main, w) :: fs1.subvols }
          let ev2 := ev1 ++ [.createSnapshot subvol_rollback_src subvol_main]
          if flt.setDefaultFails then
            rollbackCompensate fs2 (ev2 ++ [.logError "{e}"]) subvol_main
              subvol_main_newname dry_run
          else
            (.ok (), { fs2 with defaultSubvol := some subvol_main },
              ev2 ++ [.setDefault subvol_main,
                .logInfo ("FalseRollback to " ++ subvol_rollback_src ++
                  " complete. Reboot to finish")])

/-! ## The `main` pipeline -/

/-- The `[root]` section of the configuration file; `none` for a key models
`configparser` raising `NoOptionError`/`NoSectionError` on `config.get`. -/
structure RawConfig where
  mountpoint : Option String
  subvol_main : Option String
  subvol_snapshots : Option String
  dev : Option String
deriving DecidableEq, Repr

/-- What the operator does at the confirmation prompt: types a line, or
interrupts (`KeyboardInterrupt`). -/
inductive ConfirmInput where
  | text (s : String)
  | interrupt
deriving DecidableEq, Repr

/-- The `try:` block of `main` (source lines 235-258): mount the volume,
allocate the next snapshot number, create its directory, write the
descriptor, then run `rollback`.  `none` means the run does not terminate
(the allocator loop ran out of fuel).  Note `createNextSubvolumeNumber` is
called with the absolute `subvol_rollback_dir` as `dest`. -/
def pymainBodyTry (mp sm ss : String) (dev : Option String)
    (snap_id : String) (dry_run : Bool) (fs : FS) (flt : Faults)
    (nowUTC : String) (tzConv : String → String) (fuel : Nat) :
    Option (Except Err Unit × FS × List Event) :=
  let subvol_main := pathJoin mp sm
  let subvol_rollback_src :=
    pathJoin (pathJoin (pathJoin mp ss) snap_id) "snapshot"
  match mount_subvol_id5 fs flt mp dev dry_run with
  | (.error e, fs1, ev1) => some (.error e, fs1, ev1)
  | (.ok _, fs1, ev1) =>
    match getNextSnapshotNumberFS fs1 fuel with
    | (.error e, evA) => some (.error e, fs1, ev1 ++ evA)
    | (.ok none, _) => none
    | (.ok (some subvol_main_snapshot_number), evA) =>
      let subvol_rollback_dir :=
        pathJoin (pathJoin mp ss) subvol_main_snapshot_number
      let subvol_main_dst := pathJoin subvol_rollback_dir "snapshot"
      match createNextSubvolumeNumber fs1 flt mp ss subvol_rollback_dir
          dry_run with
      | (.error e, fs2, ev2) => some (.error e, fs2, ev1 ++ evA ++ ev2)
      | (.ok _, fs2, ev2) =>
        match generateXML fs2 flt (pathJoin subvol_rollback_dir "info.xml")
            subvol_main_snapshot_number snap_id nowUTC tzConv dry_run with
        | (.error e, fs3, ev3) =>
          some (.error e, fs3, ev1 ++ evA ++ ev2 ++ ev3)
        | (.ok _, fs3, ev3) =>
          match rollback fs3 flt subvol_main subvol_main_dst
              subvol_rollback_src dev dry_run with
          | (r, fs4, ev4) =>
            some (r, fs4, ev1 ++ evA ++ ev2 ++ ev3 ++ ev4)

/-- `main()` (source lines 210-261): read the configuration keys (a missing
key raises before anything else happens), ask for confirmation
(`KeyboardInterrupt` → `sys.exit(1)`; any reply other than `CONFIRM` →
`sys.exit(0)` after a fatal log), then run the `try:` block; a
`PermissionError` from it is caught and turned into `exit(1)`.  All other
exceptions propagate out of `main` (the interpreter then terminates with a
non-zero status, see `pyExitCode`). -/
def pymainRun (cfg : RawConfig) (snap_id : String) (dry_run : Bool)
    (inp : ConfirmInput) (fs : FS) (flt : Faults) (nowUTC : String)
    (tzConv : String → String) (fuel : Nat) :
    Option (Except Err Unit × FS × List Event) :=
  match cfg.mountpoint with
  | none => some (.error .configError, fs, [])
  | some mp =>
    match cfg.subvol_main with
    | none => some (.error .configError, fs, [])
    | some sm =>
      match cfg.subvol_snapshots with
      | none => some (.error .configError, fs, [])
      | some ss =>
        match inp with
        | .interrupt => some (.error (.systemExit 1), fs, [])
        | .text confirmation =>
          if confirmation != "CONFIRM" then
            some (.error (.systemExit 0), fs,
              [.logFatal "Bad confirmation, exiting..."])
          else
            match pymainBodyTry mp sm ss cfg.dev snap_id dry_run fs flt
                nowUTC tzConv fuel with
            | none => none
            | some (.error (.permissionError s), fsx, evx) =>
              some (.error (.systemExit 1), fsx,
                evx ++ [.logFatal ("Permission denied: " ++ s)])
            | some r => some r

/-- The process exit status of a `main()` outcome: normal return → 0,
`SystemExit c` → `c`, any other uncaught exception → the interpreter's 1. -/
def pyExitCode : Except Err Unit → Nat
  | .ok _ => 0
  | .error (.systemExit c) => c
  | .error _ => 1

/-- Exit status of a whole run (`none` when the run does not terminate). -/
def pymainExitCode (cfg : RawConfig) (snap_id : String) (dry_run : Bool)
    (inp : ConfirmInput) (fs : FS) (flt : Faults) (nowUTC : String)
    (tzConv : String → String) (fuel : Nat) : Option Nat :=
  (pymainRun cfg snap_id dry_run inp fs flt nowUTC tzConv fuel).map
    fun r => pyExitCode r.1

/-! ## Concrete fixtures -/

/-- No injected faults. -/
def flt0 : Faults :=
  { mkdirFails := false, mountFails := false, writeFails := false,
    snapshotFails := false, setDefaultFails := false }

def cfg0 : RawConfig :=
  { mountpoint := some "/btrfsroot", subvol_main := some "@",
    subvol_snapshots := some "@snapshots", dev := some "/dev/sda2" }

def rec5 : SnapshotRecord :=
  { type_ := "single", num := "5", date := "2024-01-02 03:04:05",
    description := "d", cleanup := "number" }

/-- A healthy filesystem: the volume is mounted, `@` is the active root,
snapshot 5 exists, and the running system's `/.snapshots` lists `2` and
`5`. -/
def fs0 : FS :=
  { subvols := [("/btrfsroot/@", 100), ("/btrfsroot/@snapshots/5/snapshot", 5)]
    dirs := ["/btrfsroot", "/btrfsroot/@snapshots", "/.snapshots"]
    files := [("/.snapshots/5/info.xml", rec5)]
    listings := [("/.snapshots", ["2", "5"])]
    mounts := ["/btrfsroot"]
    defaultSubvol := some "/btrfsroot/@" }

def tzConv0 : String → String := fun d => d ++ " CET"

def nowUTC0 : String := "2025-06-01 10:00:00"

example :
    pymainExitCode cfg0 "5" false (.text "CONFIRM") fs0 flt0 nowUTC0 tzConv0
      10 = some 0 := by decide

example :
    pymainExitCode cfg0 "5" false (.text "no") fs0 flt0 nowUTC0 tzConv0 10 =
      some 0 := by decide

example :
    pymainExitCode cfg0 "5" false .interrupt fs0 flt0 nowUTC0 tzConv0 10 =
      some 1 := by decide

-- Concrete check: dry-run with missing source descriptor raises FileNotFoundError
example :
    (pymainRun cfg0 "9" true (.text "CONFIRM") fs0 flt0 nowUTC0 tzConv0
      10).map (fun r => r.1) =
      some (.error (.fileNotFound "/.snapshots/9/info.xml")) := by decide

-- Concrete check: injected snapshot failure still exits 0, main subvol restored
example :
    pymainExitCode cfg0 "5" false (.text "CONFIRM") fs0
      { flt0 with snapshotFails := true } nowUTC0 tzConv0 10 = some 0 := by
  decide

example :
    (pymainRun cfg0 "5" false (.text "CONFIRM") fs0
        { flt0 with snapshotFails := true } nowUTC0 tzConv0 10).map
      (fun r => lookupStr r.2.1.subvols "/btrfsroot/@") = some (some 100) := by
  decide

-- Concrete check: main subvolume missing: exits 0
example :
    pymainExitCode cfg0 "5" false (.text "CONFIRM")
      { fs0 with subvols := [("/btrfsroot/@snapshots/5/snapshot", 5)] } flt0
      nowUTC0 tzConv0 10 = some 0 := by decide

-- Concrete check: mount failure exits 1
example :
    pymainExitCode cfg0 "5" false (.text "CONFIRM")
      { fs0 with mounts := [] } { flt0 with mountFails := true } nowUTC0
      tzConv0 10 = some 1 := by decide

-- Concrete check: missing config key exits 1
example :
    pymainExitCode { cfg0 with mountpoint := none } "5" false
      (.text "CONFIRM") fs0 flt0 nowUTC0 tzConv0 10 = some 1 := by decide

-- Concrete check: write PermissionError exits 1 with no subvolume mutation
example :
    (pymainRun cfg0 "5" false (.text "CONFIRM") fs0
        { flt0 with writeFails := true } nowUTC0 tzConv0 10).map
      (fun r => (pyExitCode r.1, r.2.1.subvols == fs0.subvols,
        r.2.2.all fun e => !e.isSubvolMutation)) =
      some (1, true, true) := by decide

/-! ## The allocator's backward scan (claims C3 and C4) -/

/-- Modelled from the spec (§4.1): the reference semantics of the identifier
allocator — scan the listing from its physical end backward, return the value
of the first entry that parses as an integer plus one, and `"1"` when no
entry parses.  Stated from the spec's words, to be compared with
`getNextSnapshotNumber` as translated from the source. -/
def backwardScanNext (listing : List String) : String :=
  match listing.reverse.findSome? pyInt with
  | some n => pyStr (n + 1)
  | none => "1"

/-- Once the accumulator is non-empty the loop returns it (the `while`
condition fails). -/
theorem getNextLoop_ret (xs : List String) (off : Nat) (len : Int)
    (num : String) (fuel : Nat) (h : num ≠ "") :
    getNextLoop xs off len num fuel = some num := by
  cases fuel <;> simp [getNextLoop, h]

theorem toDigitsCore_length_le (b : Nat) :
    ∀ (f n : Nat) (ds : List Char),
      ds.length ≤ (Nat.toDigitsCore b f n ds).length := by
  intro f
  induction f with
  | zero => intro n ds; exact Nat.le_refl _
  | succ f ih =>
    intro n ds
    simp only [Nat.toDigitsCore]
    split
    · exact Nat.le_succ _
    · exact Nat.le_trans (Nat.le_succ _) (ih (n / b) ((n % b).digitChar :: ds))

theorem toDigits_ne_nil (b n : Nat) : Nat.toDigits b n ≠ [] := by
  by_cases h : n / b = 0
  · simp [Nat.toDigits, Nat.toDigitsCore, h]
  · have h2 : Nat.toDigits b n =
        Nat.toDigitsCore b n (n / b) [(n % b).digitChar] := by
      simp [Nat.toDigits, Nat.toDigitsCore, h]
    intro hnil
    have h1 := toDigitsCore_length_le b n (n / b) [(n % b).digitChar]
    rw [h2] at hnil
    rw [hnil] at h1
    simp at h1

theorem natRepr_ne_empty (n : Nat) : Nat.repr n ≠ "" := by
  intro h
  have h1 : (Nat.toDigits 10 n).asString = List.asString [] := h
  exact toDigits_ne_nil 10 n (List.asString_inj.mp h1)

/-- `str(i)` for an integer is never the empty string. -/
theorem pyStr_ne_empty (n : Int) : pyStr n ≠ "" := by
  cases n with
  | ofNat m => exact natRepr_ne_empty m
  | negSucc m =>
    show "-" ++ Nat.repr (m + 1) ≠ ""
    intro h
    have h1 := congrArg String.data h
    simp [String.data_append] at h1

/-- The loop after `j` failed attempts (`snap_id_offset = j + 1`,
`snapshot_dir_length = |xs| - j`) computes the backward-scan value of the
not-yet-visited suffix of the reversed listing. -/
theorem getNextLoop_scan (xs : List String) :
    ∀ (fuel j : Nat), j < xs.length → xs.length - j + 1 ≤ fuel →
      getNextLoop xs (j + 1) ((xs.length : Int) - (j : Int)) "" fuel =
        some (match (xs.reverse.drop j).findSome? pyInt with
              | some n => pyStr (n + 1)
              | none => "1") := by
  intro fuel
  induction fuel with
  | zero => intro j hj hf; omega
  | succ f ih =>
    intro j hj hf
    have hj' : j < xs.reverse.length := by simpa using hj
    have hidx : pyNegIndex xs (j + 1) = some (xs.reverse.get ⟨j, hj'⟩) := by
      unfold pyNegIndex
      rw [if_neg (Nat.succ_ne_zero j),
        if_pos (show j + 1 ≤ xs.length from hj),
        show xs.length - (j + 1) = xs.length - 1 - j by omega,
        ← List.getElem?_reverse hj, List.getElem?_eq_getElem hj']
      rfl
    have hdrop : xs.reverse.drop j =
        xs.reverse.get ⟨j, hj'⟩ :: xs.reverse.drop (j + 1) := by
      rw [List.drop_eq_getElem_cons hj']
      rfl
    simp only [getNextLoop]
    rw [if_neg (by simp), hidx]
    simp only [Option.some_bind]
    cases hparse : pyInt (xs.reverse.get ⟨j, hj'⟩) with
    | some n =>
      dsimp only
      rw [if_neg (by omega : ¬ ((xs.length : Int) - (j : Int) = 0)),
        getNextLoop_ret xs (j + 1) _ (pyStr (n + 1)) f (pyStr_ne_empty (n + 1)),
        hdrop, List.findSome?_cons, hparse]
    | none =>
      dsimp only
      rw [hdrop, List.findSome?_cons, hparse]
      by_cases hlast : j + 1 = xs.length
      · rw [if_pos (by omega : (xs.length : Int) - (j : Int) - 1 = 0),
          getNextLoop_ret xs (j + 2) _ "1" f (by decide)]
        have : xs.reverse.drop (j + 1) = [] := by
          apply List.drop_eq_nil_of_le
          simp [hlast]
        rw [this]
        rfl
      · rw [if_neg (by omega : ¬ ((xs.length : Int) - (j : Int) - 1 = 0))]
        have h2 : getNextLoop xs (j + 1 + 1)
            ((xs.length : Int) - ((j + 1 : Nat) : Int)) "" f =
            some (match (xs.reverse.drop (j + 1)).findSome? pyInt with
                  | some n => pyStr (n + 1)
                  | none => "1") :=
          ih (j + 1) (by omega) (by omega)
        rw [show ((xs.length : Int) - (j : Int) - 1) =
            ((xs.length : Int) - ((j + 1 : Nat) : Int)) by push_cast; ring]
        exact h2

/-- C3 (amended): for every non-empty directory listing the identifier
allocator returns the value of the first entry that parses as an integer —
scanning from the listing's physical end backward — plus one, and `"1"` when
no entry parses.  It therefore returns `max(ni)+1` only when the physically
last parseable entry carries the maximum; the original claim's "all-integer
listing ⇒ max(ni)+1" fails (see `C3_counterexample`). -/
theorem C3_allocator_scans_from_end (xs : List String) (fuel : Nat)
    (hne : xs ≠ []) (hfuel : xs.length + 1 ≤ fuel) :
    getNextSnapshotNumber xs fuel = some (backwardScanNext xs) := by
  have h0 : 0 < xs.length := List.length_pos.mpr hne
  have h := getNextLoop_scan xs fuel 0 h0 (by omega)
  simp only [Nat.cast_zero, Int.sub_zero, List.drop_zero] at h
  unfold getNextSnapshotNumber backwardScanNext
  rw [show (Int.ofNat xs.length) = ((xs.length : Nat) : Int) from rfl]
  rw [show ((0 : Nat) + 1) = 1 from rfl] at h
  exact h

/-- The loop never terminates on the empty listing: every attempt raises
`IndexError`, the length counter sinks below zero, and the `= 0` exit is
never reached. -/
theorem getNextLoop_empty_none :
    ∀ (fuel off : Nat) (len : Int), len ≤ 0 →
      getNextLoop [] off len "" fuel = none := by
  intro fuel
  induction fuel with
  | zero => intro off len _; simp [getNextLoop]
  | succ f ih =>
    intro off len h
    have hni : pyNegIndex [] off = none := by
      unfold pyNegIndex
      split
      · rfl
      · split <;> simp
    simp only [getNextLoop]
    rw [if_neg (by simp), hni]
    simp only [Option.none_bind]
    rw [if_neg (by omega : ¬ (len - 1 = 0))]
    exact ih (off + 1) (len - 1) (by omega)

/-- C3 counterexample: the non-empty all-integer listing `["5", "3"]` has
maximum 5, so the claim demands `max+1 = "6"`; the allocator instead returns
`"4"` — the physically last entry `3` plus one. -/
theorem C3_counterexample :
    getNextSnapshotNumber ["5", "3"] 10 = some "4" ∧
    pyStr (max (5 : Int) 3 + 1) = "6" ∧ ("4" : String) ≠ "6" := by decide

/-- C3 witness: on the concrete listing `["a", "7", "x"]` (trailing entry not
parseable) the amended claim yields `"8"`, the first-parseable-from-the-end
entry `7` plus one. -/
theorem C3_allocator_scans_from_end_witness :
    getNextSnapshotNumber ["a", "7", "x"] 10 =
      some (backwardScanNext ["a", "7", "x"]) ∧
    backwardScanNext ["a", "7", "x"] = "8" :=
  ⟨C3_allocator_scans_from_end ["a", "7", "x"] 10 (by decide) (by decide),
    by decide⟩

/-- C4 (code bug): on the empty directory listing the allocator never
terminates — the first `snapshot_dir[-1]` raises `IndexError`, the length
counter drops to `-1`, and the `== 0` exit is never reached — whereas the
spec (and the allocator's own warning message) demand that it return `"1"`
with a diagnostic.  On a non-empty listing with no parseable entry the code
does behave as the claim states (second conjunct). -/
theorem C4_empty_listing_diverges :
    (∀ fuel, getNextSnapshotNumber [] fuel = none) ∧
      getNextSnapshotNumber ["x"] 10 = some "1" := by
  constructor
  · intro fuel
    unfold getNextSnapshotNumber
    exact getNextLoop_empty_none fuel 1 (Int.ofNat 0) (by simp)
  · decide

/-! ## Association-list lemmas -/

theorem lookupStr_cons {α : Type} (k : String) (v : α) (m : List (String × α))
    (q : String) :
    lookupStr ((k, v) :: m) q = if k = q then some v else lookupStr m q := by
  simp only [lookupStr, beq_iff_eq]

theorem lookupStr_eraseKey {α : Type} (m : List (String × α)) (k q : String) :
    lookupStr (eraseKey m k) q = if q = k then none else lookupStr m q := by
  induction m with
  | nil => simp only [eraseKey, List.filter_nil, lookupStr]; split <;> rfl
  | cons kv rest ih =>
    obtain ⟨k2, v⟩ := kv
    simp only [eraseKey, List.filter_cons] at *
    by_cases h2 : k2 = k
    · subst h2
      rw [show ((k2, v).1 != k2) = false by simp]
      rw [if_neg (by simp : ¬ (false = true))]
      rw [ih, lookupStr_cons]
      by_cases hq : q = k2
      · simp [hq]
      · rw [if_neg hq, if_neg hq, if_neg (fun h => hq h.symm)]
    · rw [if_pos (show ((k2, v).1 != k) = true by simpa using h2)]
      rw [lookupStr_cons, ih, lookupStr_cons]
      by_cases hq : k2 = q
      · subst hq
        rw [if_pos rfl, if_neg (fun h => h2 h), if_pos rfl]
      · rw [if_neg hq]
        by_cases hqk : q = k
        · rw [if_pos hqk, if_pos hqk]
        · rw [if_neg hqk, if_neg hqk, if_neg hq]

theorem eraseKey_cons_self {α : Type} (k : String) (v : α)
    (m : List (String × α)) : eraseKey ((k, v) :: m) k = eraseKey m k := by
  simp [eraseKey, List.filter_cons]

/-! ## Claim C1: the compensating rename -/

/-- C1: when the rename of the main subvolume has succeeded and the
snapshot-create step then raises a btrfs-utility error — the main path being
vacant — the orchestrator renames the subvolume at the rollback-target path
back to the main path: `rollback` returns normally, every path afterwards
maps to the same subvolume as before the call (in particular the main path
again holds the original subvolume and the rollback-target path no longer
exists), and directories, descriptor files, listings, mounts and the default
subvolume are untouched.  (When set-default fails instead, the main path is
occupied by the just-created snapshot, so the claim's "main path vacant"
guard is not satisfied and no compensation is due.) -/
theorem C1_compensation_restores_layout (fs : FS) (flt : Faults)
    (subvol_main subvol_main_newname subvol_rollback_src : String)
    (dev : Option String) (v : Nat)
    (hmain : lookupStr fs.subvols subvol_main = some v)
    (hmaindir : subvol_main ∉ fs.dirs)
    (hnew : lookupStr fs.subvols subvol_main_newname = none)
    (hne : subvol_main_newname ≠ subvol_main)
    (hfail : flt.snapshotFails = true) :
    (rollback fs flt subvol_main subvol_main_newname subvol_rollback_src dev
      false).1 = .ok () ∧
    (∀ p, lookupStr (rollback fs flt subvol_main subvol_main_newname
      subvol_rollback_src dev false).2.1.subvols p = lookupStr fs.subvols p) ∧
    (rollback fs flt subvol_main subvol_main_newname subvol_rollback_src dev
      false).2.1.dirs = fs.dirs ∧
    (rollback fs flt subvol_main subvol_main_newname subvol_rollback_src dev
      false).2.1.files = fs.files ∧
    (rollback fs flt subvol_main subvol_main_newname subvol_rollback_src dev
      false).2.1.defaultSubvol = fs.defaultSubvol := by
  have hfs1 : ∀ ev, rollbackCompensate
      { fs with subvols := (subvol_main_newname, v) :: eraseKey fs.subvols subvol_main }
      ev subvol_main subvol_main_newname false =
      (.ok (),
        { fs with subvols := (subvol_main, v) :: eraseKey (eraseKey fs.subvols subvol_main) subvol_main_newname },
        (ev ++ [.logInfo ("Moving " ++ subvol_main_newname ++ " back to " ++
          subvol_main)]) ++
          [.rename subvol_main_newname subvol_main]) := by
    intro ev
    unfold rollbackCompensate
    rw [if_neg (c := (FS.isdir _ subvol_main) = true)
      (by simp [FS.isdir, hmaindir, lookupStr_cons, if_neg hne,
        lookupStr_eraseKey])]
    rw [if_neg (by simp : ¬ (false = true))]
    rw [show lookupStr ((subvol_main_newname, v) ::
        eraseKey fs.subvols subvol_main) subvol_main_newname = some v by
      rw [lookupStr_cons, if_pos rfl]]
    rw [eraseKey_cons_self]
  have hres : rollback fs flt subvol_main subvol_main_newname
      subvol_rollback_src dev false =
      (.ok (),
        { fs with subvols := (subvol_main, v) :: eraseKey (eraseKey fs.subvols subvol_main) subvol_main_newname },
        (([.rename subvol_main subvol_main_newname, .logError "{e}"] ++
          [.logInfo ("Moving " ++ subvol_main_newname ++ " back to " ++
            subvol_main)]) ++
          [.rename subvol_main_newname subvol_main])) := by
    unfold rollback
    rw [if_neg (by simp : ¬ (false = true)), hmain]
    dsimp only
    cases hsrc : lookupStr ((subvol_main_newname, v) ::
        eraseKey fs.subvols subvol_main) subvol_rollback_src with
    | none =>
      exact hfs1 _
    | some w =>
      dsimp only
      rw [hfail]
      rw [if_pos (by simp)]
      exact hfs1 _
  refine ⟨by rw [hres], ?_, by rw [hres], by rw [hres], by rw [hres]⟩
  intro p
  rw [hres]
  show lookupStr ((subvol_main, v) ::
    eraseKey (eraseKey fs.subvols subvol_main) subvol_main_newname) p =
    lookupStr fs.subvols p
  rw [lookupStr_cons, lookupStr_eraseKey, lookupStr_eraseKey]
  by_cases hp : subvol_main = p
  · rw [if_pos hp, ← hp, hmain]
  · rw [if_neg hp]
    by_cases hpn : p = subvol_main_newname
    · rw [if_pos hpn, hpn, hnew]
    · rw [if_neg hpn, if_neg (fun h => hp h.symm)]

/-- C1 witness: a concrete run — main subvolume `/btrfsroot/@` (content 100),
injected snapshot failure — ends with `/btrfsroot/@` again holding content
100 and the rollback-target path vacant. -/
theorem C1_compensation_restores_layout_witness :
    (rollback fs0 { flt0 with snapshotFails := true } "/btrfsroot/@"
      "/btrfsroot/@snapshots/6/snapshot" "/btrfsroot/@snapshots/5/snapshot"
      (some "/dev/sda2") false).1 = .ok () ∧
    lookupStr (rollback fs0 { flt0 with snapshotFails := true } "/btrfsroot/@"
      "/btrfsroot/@snapshots/6/snapshot" "/btrfsroot/@snapshots/5/snapshot"
      (some "/dev/sda2") false).2.1.subvols "/btrfsroot/@" = some 100 ∧
    lookupStr (rollback fs0 { flt0 with snapshotFails := true } "/btrfsroot/@"
      "/btrfsroot/@snapshots/6/snapshot" "/btrfsroot/@snapshots/5/snapshot"
      (some "/dev/sda2") false).2.1.subvols
      "/btrfsroot/@snapshots/6/snapshot" = none := by
  have h := C1_compensation_restores_layout fs0
    { flt0 with snapshotFails := true } "/btrfsroot/@"
    "/btrfsroot/@snapshots/6/snapshot" "/btrfsroot/@snapshots/5/snapshot"
    (some "/dev/sda2") 100 (by decide) (by decide) (by decide) (by decide)
    rfl
  refine ⟨h.1, ?_, ?_⟩
  · rw [h.2.1 "/btrfsroot/@"]; decide
  · rw [h.2.1 "/btrfsroot/@snapshots/6/snapshot"]; decide

/-! ## Claim C5: ordering of the repositioning sub-steps -/

/-- The filesystem-mutating events of a `rollback` call, in order. -/
def rollbackMutations (fs : FS) (flt : Faults) (m nn src : String)
    (dev : Option String) (dry_run : Bool) : List Event :=
  ((rollback fs flt m nn src dev dry_run).2.2).filter Event.isMutation

/-- The compensation handler appends at most the single compensating rename
to the mutation trace. -/
theorem rollbackCompensate_mutations (fs : FS) (ev : List Event)
    (m nn : String) :
    ((rollbackCompensate fs ev m nn false).2.2).filter Event.isMutation =
      ev.filter Event.isMutation ∨
    ((rollbackCompensate fs ev m nn false).2.2).filter Event.isMutation =
      ev.filter Event.isMutation ++ [Event.rename nn m] := by
  unfold rollbackCompensate
  split
  · left; rfl
  · rw [if_neg (by simp : ¬ (false = true))]
    split
    · left; simp [List.filter_append, Event.isMutation]
    · right; simp [List.filter_append, Event.isMutation]

/-- C5: in every real (non-dry-run) invocation of `rollback` the mutating
steps occur strictly in the order (a) rename main → rollback-target, (b)
snapshot rollback-source → main, (c) set-default main: whenever the snapshot
step appears in the mutation trace, the trace begins with the rename followed
by the snapshot; whenever the set-default step appears, the trace is exactly
the three steps in order; and in a fault-free run with main present the
trace is exactly the three steps.  In particular the snapshot is never
created before the rename has vacated the main path. -/
theorem C5_repositioning_order (fs : FS) (flt : Faults) (m nn src : String)
    (dev : Option String) (v w : Nat) :
    (Event.createSnapshot src m ∈ rollbackMutations fs flt m nn src dev false →
      (rollbackMutations fs flt m nn src dev false).take 2 =
        [Event.rename m nn, Event.createSnapshot src m]) ∧
    (Event.setDefault m ∈ rollbackMutations fs flt m nn src dev false →
      rollbackMutations fs flt m nn src dev false =
        [Event.rename m nn, Event.createSnapshot src m,
          Event.setDefault m]) ∧
    (lookupStr fs.subvols m = some v → lookupStr fs.subvols src = some w →
      src ≠ m → nn ≠ m → m ∉ fs.dirs →
      flt.snapshotFails = false → flt.setDefaultFails = false →
      rollbackMutations fs flt m nn src dev false =
        [Event.rename m nn, Event.createSnapshot src m,
          Event.setDefault m]) := by
  unfold rollbackMutations rollback
  rw [if_neg (by simp : ¬ (false = true))]
  dsimp only
  cases hm : lookupStr fs.subvols m with
  | none =>
    refine ⟨by simp [Event.isMutation], by simp [Event.isMutation], ?_⟩
    intro h1
    exact absurd h1 (by simp)
  | some v2 =>
    dsimp only
    cases hsrc : lookupStr ((nn, v2) :: eraseKey fs.subvols m) src with
    | none =>
      dsimp only
      rcases rollbackCompensate_mutations
          { fs with subvols := (nn, v2) :: eraseKey fs.subvols m }
          ([Event.rename m nn] ++ [Event.logError "{e}"]) m nn with h | h <;>
        rw [h]
      all_goals refine ⟨by simp [Event.isMutation],
        by simp [Event.isMutation], ?_⟩
      all_goals {
        intro h1 h2 h3 h4 h5 h6 h7
        exfalso
        rw [lookupStr_cons] at hsrc
        by_cases hns : nn = src
        · rw [if_pos hns] at hsrc
          exact Option.noConfusion hsrc
        · rw [if_neg hns, lookupStr_eraseKey, if_neg h3, h2] at hsrc
          exact Option.noConfusion hsrc
      }
    | some w2 =>
      dsimp only
      split
      · rename_i hcond
        rcases rollbackCompensate_mutations
            { fs with subvols := (nn, v2) :: eraseKey fs.subvols m }
            ([Event.rename m nn] ++ [Event.logError "{e}"]) m nn with h | h <;>
          rw [h]
        all_goals refine ⟨by simp [Event.isMutation],
          by simp [Event.isMutation], ?_⟩
        all_goals {
          intro h1 h2 h3 h4 h5 h6 h7
          exfalso
          have hisdir : FS.isdir
              { fs with subvols := (nn, v2) :: eraseKey fs.subvols m } m =
              false := by
            simp [FS.isdir, lookupStr_cons, if_neg h4, lookupStr_eraseKey, h5]
          rw [h6, Bool.false_or, hisdir] at hcond
          exact Bool.noConfusion hcond
        }
      · split
        · rename_i hsd
          rcases rollbackCompensate_mutations
              { fs with subvols :=
                  (m, w2) :: (nn, v2) :: eraseKey fs.subvols m }
              ([Event.rename m nn] ++ [Event.createSnapshot src m] ++
                [Event.logError "{e}"]) m nn with h | h <;>
            rw [h]
          all_goals refine ⟨by simp [Event.isMutation],
            by simp [Event.isMutation], ?_⟩
          all_goals {
            intro h1 h2 h3 h4 h5 h6 h7
            rw [h7] at hsd
            exact Bool.noConfusion hsd
          }
        · refine ⟨?_, ?_, ?_⟩ <;>
            simp [List.filter_append, Event.isMutation]

/-- C5 witness: on the healthy fixture the fault-free real run mutates
exactly rename, then snapshot, then set-default, in that order. -/
theorem C5_repositioning_order_witness :
    rollbackMutations fs0 flt0 "/btrfsroot/@"
      "/btrfsroot/@snapshots/6/snapshot" "/btrfsroot/@snapshots/5/snapshot"
      (some "/dev/sda2") false =
      [Event.rename "/btrfsroot/@" "/btrfsroot/@snapshots/6/snapshot",
       Event.createSnapshot "/btrfsroot/@snapshots/5/snapshot" "/btrfsroot/@",
       Event.setDefault "/btrfsroot/@"] :=
  (C5_repositioning_order fs0 flt0 "/btrfsroot/@"
    "/btrfsroot/@snapshots/6/snapshot" "/btrfsroot/@snapshots/5/snapshot"
    (some "/dev/sda2") 100 5).2.2 (by decide) (by decide) (by decide)
    (by decide) (by decide) rfl rfl

/-! ## Claim C7: dry-run mode -/

theorem ensure_dir_dry (fs : FS) (flt : Faults) (p : String) :
    ∃ ev, ensure_dir fs flt p true = (.ok (), fs, ev) ∧
      ∀ e ∈ ev, e.isMutation = false := by
  unfold ensure_dir
  split
  · exact ⟨_, rfl, by simp [Event.isMutation]⟩
  · exact ⟨_, rfl, by simp⟩

theorem mount_subvol_id5_dry (fs : FS) (flt : Faults) (target : String)
    (source : Option String) :
    ∃ ev, mount_subvol_id5 fs flt target source true = (.ok (), fs, ev) ∧
      ∀ e ∈ ev, e.isMutation = false := by
  unfold mount_subvol_id5
  obtain ⟨ev1, he, hm⟩ := ensure_dir_dry fs flt target
  rw [he]
  dsimp only
  split
  · refine ⟨_, rfl, ?_⟩
    intro e he'
    rcases List.mem_append.mp he' with h | h
    · exact hm e h
    · simp at h; subst h; rfl
  · exact ⟨_, rfl, hm⟩

theorem generateXML_dry (fs : FS) (flt : Faults)
    (file_name num src_id nowUTC : String) (tzConv : String → String) :
    ∃ r ev, generateXML fs flt file_name num src_id nowUTC tzConv true =
      (r, fs, ev) ∧ ∀ e ∈ ev, e.isMutation = false := by
  unfold generateXML
  dsimp only
  cases h : lookupStr fs.files ("/.snapshots/" ++ src_id ++ "/info.xml") with
  | none => exact ⟨_, _, rfl, by simp [Event.isMutation]⟩
  | some srcRec => exact ⟨_, _, rfl, by simp [Event.isMutation]⟩

theorem rollback_dry (fs : FS) (flt : Faults) (m nn src : String)
    (dev : Option String) :
    ∃ ev, rollback fs flt m nn src dev true = (.ok (), fs, ev) ∧
      ∀ e ∈ ev, e.isMutation = false := by
  unfold rollback
  exact ⟨_, rfl, by simp [Event.isMutation]⟩

theorem getNextSnapshotNumberFS_events (fs : FS) (fuel : Nat) :
    ∀ e ∈ (getNextSnapshotNumberFS fs fuel).2, e.isMutation = false := by
  unfold getNextSnapshotNumberFS
  split <;> simp [Event.isMutation]

/-- The whole `try:` block in dry-run mode leaves the filesystem untouched
and emits no mutating event (it may still fail, on one of the reads). -/
theorem pymainBodyTry_dry (mp sm ss : String) (dev : Option String)
    (snap_id : String) (fs : FS) (flt : Faults) (nowUTC : String)
    (tzConv : String → String) (fuel : Nat) :
    match pymainBodyTry mp sm ss dev snap_id true fs flt nowUTC tzConv
        fuel with
    | none => True
    | some r => r.2.1 = fs ∧ ∀ e ∈ r.2.2, e.isMutation = false := by
  unfold pymainBodyTry
  obtain ⟨ev1, he1, hm1⟩ := mount_subvol_id5_dry fs flt mp dev
  rw [he1]
  dsimp only
  have hmA := getNextSnapshotNumberFS_events fs fuel
  rcases hg : getNextSnapshotNumberFS fs fuel with ⟨res, evA⟩
  rw [hg] at hmA
  cases res with
  | error e =>
    dsimp only
    refine ⟨rfl, ?_⟩
    intro e' he'
    rcases List.mem_append.mp he' with h | h
    · exact hm1 e' h
    · exact hmA e' h
  | ok onum =>
    cases onum with
    | none => trivial
    | some num =>
      dsimp only
      obtain ⟨ev2, he2, hm2⟩ := ensure_dir_dry fs flt
        (pathJoin (pathJoin mp ss) (pathJoin (pathJoin mp ss) num))
      rw [show createNextSubvolumeNumber fs flt mp ss
          (pathJoin (pathJoin mp ss) num) true =
          ensure_dir fs flt
            (pathJoin (pathJoin mp ss) (pathJoin (pathJoin mp ss) num)) true
          from rfl, he2]
      dsimp only
      obtain ⟨r3, ev3, he3, hm3⟩ := generateXML_dry fs flt
        (pathJoin (pathJoin (pathJoin mp ss) num) "info.xml") num snap_id
        nowUTC tzConv
      rw [he3]
      cases r3 with
      | error e =>
        dsimp only
        refine ⟨rfl, ?_⟩
        intro e' he'
        rcases List.mem_append.mp he' with h | h
        · rcases List.mem_append.mp h with h2 | h2
          · rcases List.mem_append.mp h2 with h3 | h3
            · exact hm1 e' h3
            · exact hmA e' h3
          · exact hm2 e' h2
        · exact hm3 e' h
      | ok u =>
        dsimp only
        obtain ⟨ev4, he4, hm4⟩ := rollback_dry fs flt (pathJoin mp sm)
          (pathJoin (pathJoin (pathJoin mp ss) num) "snapshot")
          (pathJoin (pathJoin (pathJoin mp ss) snap_id) "snapshot") dev
        rw [he4]
        dsimp only
        refine ⟨rfl, ?_⟩
        intro e' he'
        rcases List.mem_append.mp he' with h | h
        · rcases List.mem_append.mp h with h2 | h2
          · rcases List.mem_append.mp h2 with h3 | h3
            · rcases List.mem_append.mp h3 with h4 | h4
              · exact hm1 e' h4
              · exact hmA e' h4
            · exact hm2 e' h3
          · exact hm3 e' h2
        · exact hm4 e' h

/-- C7 (amended): in dry-run mode every mutating sub-step is replaced by a
log line: whatever the run returns, the filesystem afterwards is exactly the
initial one and the trace contains no mutating event.  However — contrary to
the original claim — a dry run is not free of filesystem errors, because the
read-only steps (the `/.snapshots` listing and the source-descriptor parse)
still execute; see the counterexample. -/
theorem C7_dry_run_no_mutation (cfg : RawConfig) (snap_id : String)
    (inp : ConfirmInput) (fs : FS) (flt : Faults) (nowUTC : String)
    (tzConv : String → String) (fuel : Nat) :
    match pymainRun cfg snap_id true inp fs flt nowUTC tzConv fuel with
    | none => True
    | some r => r.2.1 = fs ∧ (r.2.2.all fun e => !e.isMutation) = true := by
  unfold pymainRun
  cases cfg.mountpoint with
  | none => exact ⟨rfl, rfl⟩
  | some mp =>
    cases cfg.subvol_main with
    | none => exact ⟨rfl, rfl⟩
    | some sm =>
      cases cfg.subvol_snapshots with
      | none => exact ⟨rfl, rfl⟩
      | some ss =>
        cases inp with
        | interrupt => exact ⟨rfl, rfl⟩
        | text confirmation =>
          dsimp only
          by_cases hc : (confirmation != "CONFIRM") = true
          · rw [if_pos hc]
            exact ⟨rfl, rfl⟩
          · rw [if_neg hc]
            have hb := pymainBodyTry_dry mp sm ss cfg.dev snap_id fs flt
              nowUTC tzConv fuel
            rcases hbody : pymainBodyTry mp sm ss cfg.dev snap_id true fs flt
                nowUTC tzConv fuel with _ | ⟨r, fs2, ev⟩
            · trivial
            · rw [hbody] at hb
              obtain ⟨hfs2, hev⟩ := hb
              have hall : (ev.all fun e => !e.isMutation) = true := by
                rw [List.all_eq_true]
                intro e he
                have h2 : e.isMutation = false := hev e he
                simp [h2]
              cases r with
              | ok u => exact ⟨hfs2, hall⟩
              | error err =>
                cases err with
                | permissionError s =>
                  refine ⟨hfs2, ?_⟩
                  rw [List.all_eq_true]
                  intro e he
                  rcases List.mem_append.mp he with h | h
                  · have h2 : e.isMutation = false := hev e h
                    simp [h2]
                  · simp at h; subst h; rfl
                | configError => exact ⟨hfs2, hall⟩
                | fileNotFound p => exact ⟨hfs2, hall⟩
                | btrfsError => exact ⟨hfs2, hall⟩
                | osError s => exact ⟨hfs2, hall⟩
                | systemExit c => exact ⟨hfs2, hall⟩

/-- C7 counterexample: in dry-run mode with the source descriptor
`/.snapshots/9/info.xml` absent, the run still raises `FileNotFoundError`
(the `minidom.parse` read precedes the `dry_run` check) and the process
terminates abnormally — a simulated run is not free of filesystem errors. -/
theorem C7_counterexample :
    (pymainRun cfg0 "9" true (.text "CONFIRM") fs0 flt0 nowUTC0 tzConv0
      10).map (fun r => r.1) =
      some (.error (.fileNotFound "/.snapshots/9/info.xml")) ∧
    pymainExitCode cfg0 "9" true (.text "CONFIRM") fs0 flt0 nowUTC0 tzConv0
      10 = some 1 := by decide

/-! ## Claim C6: which paths the reads target -/

/-- The read events a run may contain: a directory listing targets
`/.snapshots` and a descriptor parse targets
`/.snapshots/<snap_id>/info.xml`; non-read events are unconstrained. -/
def readsOnlyFixedPaths (snap_id : String) (e : Event) : Bool :=
  match e with
  | .listdir p => p == "/.snapshots"
  | .parseXML p => p == "/.snapshots/" ++ snap_id ++ "/info.xml"
  | _ => true

theorem ensure_dir_reads (snap_id : String) (fs : FS) (flt : Faults)
    (p : String) (d : Bool) :
    ∀ e ∈ (ensure_dir fs flt p d).2.2,
      readsOnlyFixedPaths snap_id e = true := by
  unfold ensure_dir
  split
  · split
    · simp [readsOnlyFixedPaths]
    · split <;> simp [readsOnlyFixedPaths]
  · simp

theorem mount_subvol_id5_reads (snap_id : String) (fs : FS) (flt : Faults)
    (target : String) (source : Option String) (d : Bool) :
    ∀ e ∈ (mount_subvol_id5 fs flt target source d).2.2,
      readsOnlyFixedPaths snap_id e = true := by
  unfold mount_subvol_id5
  rcases he : ensure_dir fs flt target d with ⟨r1, fs1, ev1⟩
  have h1 := ensure_dir_reads snap_id fs flt target d
  rw [he] at h1
  cases r1 with
  | error e1 => exact h1
  | ok u =>
    dsimp only
    split
    · split
      · exact List.forall_mem_append.mpr ⟨h1, by simp [readsOnlyFixedPaths]⟩
      · split
        · exact List.forall_mem_append.mpr
            ⟨h1, by simp [readsOnlyFixedPaths]⟩
        · exact List.forall_mem_append.mpr
            ⟨h1, by simp [readsOnlyFixedPaths]⟩
    · exact h1

theorem rollbackCompensate_reads (snap_id : String) (fs : FS)
    (ev : List Event) (m nn : String) (d : Bool)
    (hev : ∀ e ∈ ev, readsOnlyFixedPaths snap_id e = true) :
    ∀ e ∈ (rollbackCompensate fs ev m nn d).2.2,
      readsOnlyFixedPaths snap_id e = true := by
  unfold rollbackCompensate
  split
  · exact hev
  · split
    · exact List.forall_mem_append.mpr
        ⟨List.forall_mem_append.mpr ⟨hev, by simp [readsOnlyFixedPaths]⟩,
          by simp [readsOnlyFixedPaths]⟩
    · split
      · exact List.forall_mem_append.mpr
          ⟨hev, by simp [readsOnlyFixedPaths]⟩
      · exact List.forall_mem_append.mpr
          ⟨List.forall_mem_append.mpr ⟨hev, by simp [readsOnlyFixedPaths]⟩,
            by simp [readsOnlyFixedPaths]⟩

theorem rollback_reads (snap_id : String) (fs : FS) (flt : Faults)
    (m nn src : String) (dev : Option String) (d : Bool) :
    ∀ e ∈ (rollback fs flt m nn src dev d).2.2,
      readsOnlyFixedPaths snap_id e = true := by
  unfold rollback
  split
  · simp [readsOnlyFixedPaths]
  · dsimp only
    cases hm : lookupStr fs.subvols m with
    | none => simp [readsOnlyFixedPaths]
    | some v =>
      dsimp only
      cases hsrc : lookupStr ((nn, v) :: eraseKey fs.subvols m) src with
      | none =>
        exact rollbackCompensate_reads snap_id _ _ _ _ _
          (by simp [readsOnlyFixedPaths])
      | some w =>
        dsimp only
        split
        · exact rollbackCompensate_reads snap_id _ _ _ _ _
            (by simp [readsOnlyFixedPaths])
        · split
          · exact rollbackCompensate_reads snap_id _ _ _ _ _
              (by simp [readsOnlyFixedPaths])
          · simp [readsOnlyFixedPaths]

theorem generateXML_reads (fs : FS) (flt : Faults)
    (file_name num src_id nowUTC : String) (tzConv : String → String)
    (d : Bool) :
    ∀ e ∈ (generateXML fs flt file_name num src_id nowUTC tzConv d).2.2,
      readsOnlyFixedPaths src_id e = true := by
  unfold generateXML
  dsimp only
  split
  · simp [readsOnlyFixedPaths]
  · split
    · simp [readsOnlyFixedPaths]
    · split <;> simp [readsOnlyFixedPaths]

theorem getNextSnapshotNumberFS_reads (snap_id : String) (fs : FS)
    (fuel : Nat) :
    ∀ e ∈ (getNextSnapshotNumberFS fs fuel).2,
      readsOnlyFixedPaths snap_id e = true := by
  unfold getNextSnapshotNumberFS
  split <;> simp [readsOnlyFixedPaths]

/-- The `try:` block reads only the two fixed absolute paths. -/
theorem pymainBodyTry_reads (mp sm ss : String) (dev : Option String)
    (snap_id : String) (d : Bool) (fs : FS) (flt : Faults) (nowUTC : String)
    (tzConv : String → String) (fuel : Nat) :
    match pymainBodyTry mp sm ss dev snap_id d fs flt nowUTC tzConv fuel with
    | none => True
    | some r => ∀ e ∈ r.2.2, readsOnlyFixedPaths snap_id e = true := by
  unfold pymainBodyTry
  rcases hmo : mount_subvol_id5 fs flt mp dev d with ⟨r1, fs1, ev1⟩
  have h1 := mount_subvol_id5_reads snap_id fs flt mp dev d
  rw [hmo] at h1
  cases r1 with
  | error e1 => exact h1
  | ok u =>
    dsimp only
    have hA := getNextSnapshotNumberFS_reads snap_id fs1 fuel
    rcases hg : getNextSnapshotNumberFS fs1 fuel with ⟨res, evA⟩
    rw [hg] at hA
    cases res with
    | error e2 => exact List.forall_mem_append.mpr ⟨h1, hA⟩
    | ok onum =>
      cases onum with
      | none => trivial
      | some num =>
        dsimp only
        rcases hc : createNextSubvolumeNumber fs1 flt mp ss
            (pathJoin (pathJoin mp ss) num) d with ⟨r2, fs2, ev2⟩
        have h2 : ∀ e ∈ ev2, readsOnlyFixedPaths snap_id e = true := by
          have h2a := ensure_dir_reads snap_id fs1 flt
            (pathJoin (pathJoin mp ss) (pathJoin (pathJoin mp ss) num)) d
          rw [show createNextSubvolumeNumber fs1 flt mp ss
              (pathJoin (pathJoin mp ss) num) d =
              ensure_dir fs1 flt
                (pathJoin (pathJoin mp ss) (pathJoin (pathJoin mp ss) num)) d
              from rfl] at hc
          rw [hc] at h2a
          exact h2a
        cases r2 with
        | error e3 =>
          exact List.forall_mem_append.mpr
            ⟨List.forall_mem_append.mpr ⟨h1, hA⟩, h2⟩
        | ok u2 =>
          dsimp only
          rcases hx : generateXML fs2 flt
              (pathJoin (pathJoin (pathJoin mp ss) num) "info.xml") num
              snap_id nowUTC tzConv d with ⟨r3, fs3, ev3⟩
          have h3 := generateXML_reads fs2 flt
            (pathJoin (pathJoin (pathJoin mp ss) num) "info.xml") num
            snap_id nowUTC tzConv d
          rw [hx] at h3
          cases r3 with
          | error e4 =>
            exact List.forall_mem_append.mpr
              ⟨List.forall_mem_append.mpr
                ⟨List.forall_mem_append.mpr ⟨h1, hA⟩, h2⟩, h3⟩
          | ok u3 =>
            dsimp only
            rcases hr : rollback fs3 flt (pathJoin mp sm)
                (pathJoin (pathJoin (pathJoin mp ss) num) "snapshot")
                (pathJoin (pathJoin (pathJoin mp ss) snap_id) "snapshot") dev
                d with ⟨r4, fs4, ev4⟩
            have h4 := rollback_reads snap_id fs3 flt (pathJoin mp sm)
              (pathJoin (pathJoin (pathJoin mp ss) num) "snapshot")
              (pathJoin (pathJoin (pathJoin mp ss) snap_id) "snapshot") dev d
            rw [hr] at h4
            exact List.forall_mem_append.mpr
              ⟨List.forall_mem_append.mpr
                ⟨List.forall_mem_append.mpr
                  ⟨List.forall_mem_append.mpr ⟨h1, hA⟩, h2⟩, h3⟩, h4⟩

/-- C6 (amended): in every run — whatever the configuration says — the
directory listing consulted by the identifier allocator is the fixed absolute
path `/.snapshots`, and the rollback-source's descriptor is parsed from the
fixed absolute path `/.snapshots/<snap_id>/info.xml`; the configured
snapshots directory (`mountpoint / subvol_snapshots`) is not the one read.
The original claim — that these reads use the configured directory — fails;
see the counterexample. -/
theorem C6_reads_fixed_absolute_paths (cfg : RawConfig) (snap_id : String)
    (dry_run : Bool) (inp : ConfirmInput) (fs : FS) (flt : Faults)
    (nowUTC : String) (tzConv : String → String) (fuel : Nat) :
    match pymainRun cfg snap_id dry_run inp fs flt nowUTC tzConv fuel with
    | none => True
    | some r => (r.2.2.all (readsOnlyFixedPaths snap_id)) = true := by
  unfold pymainRun
  cases cfg.mountpoint with
  | none => rfl
  | some mp =>
    cases cfg.subvol_main with
    | none => rfl
    | some sm =>
      cases cfg.subvol_snapshots with
      | none => rfl
      | some ss =>
        cases inp with
        | interrupt => rfl
        | text confirmation =>
          dsimp only
          by_cases hc : (confirmation != "CONFIRM") = true
          · rw [if_pos hc]; rfl
          · rw [if_neg hc]
            have hb := pymainBodyTry_reads mp sm ss cfg.dev snap_id dry_run
              fs flt nowUTC tzConv fuel
            rcases hbody : pymainBodyTry mp sm ss cfg.dev snap_id dry_run fs
                flt nowUTC tzConv fuel with _ | ⟨r, fs2, ev⟩
            · trivial
            · rw [hbody] at hb
              have hall : (ev.all (readsOnlyFixedPaths snap_id)) = true := by
                rw [List.all_eq_true]
                exact hb
              cases r with
              | ok u => exact hall
              | error err =>
                cases err with
                | permissionError s =>
                  dsimp only
                  rw [List.all_eq_true]
                  intro e he
                  rcases List.mem_append.mp he with h | h
                  · exact hb e h
                  · simp at h; subst h; rfl
                | configError => exact hall
                | fileNotFound p => exact hall
                | btrfsError => exact hall
                | osError s => exact hall
                | systemExit c => exact hall

/-- C6 counterexample: with `mountpoint = "/btrfsroot"` and
`subvol_snapshots = "@snapshots"` the configured snapshots directory is
`/btrfsroot/@snapshots`, yet the concrete run lists `/.snapshots` and parses
`/.snapshots/5/info.xml` and never lists the configured directory. -/
theorem C6_counterexample :
    pathJoin "/btrfsroot" "@snapshots" = "/btrfsroot/@snapshots" ∧
    "/.snapshots" ≠ pathJoin "/btrfsroot" "@snapshots" ∧
    (pymainRun cfg0 "5" false (.text "CONFIRM") fs0 flt0 nowUTC0 tzConv0
      10).map (fun r =>
        (r.2.2.contains (Event.listdir "/.snapshots"),
         r.2.2.contains (Event.parseXML "/.snapshots/5/info.xml"),
         r.2.2.contains
           (Event.listdir (pathJoin "/btrfsroot" "@snapshots")))) =
      some (true, true, false) := by decide

/-! ## Claim C2: failures before repositioning leave the main subvolume
untouched -/

/-- The run terminated, reported failure (exit status 1), the subvolume table
and the default-subvolume setting are unchanged, and no subvolume-mutating
event (rename / snapshot-create / set-default) occurred. -/
def AbortedBeforeRepositioning
    (o : Option (Except Err Unit × FS × List Event)) (fs : FS) : Prop :=
  match o with
  | none => False
  | some r =>
    pyExitCode r.1 = 1 ∧ r.2.1.subvols = fs.subvols ∧
      r.2.1.defaultSubvol = fs.defaultSubvol ∧
      (r.2.2.all fun e => !e.isSubvolMutation) = true

/-- C2: with the configuration read and the operation confirmed, a failure of
(1) the mountpoint-directory creation, (2) the mount command, (3) the
allocator's directory listing, (4) the source-descriptor read, (5) the
descriptor write, or (6) the creation of the new snapshot's directory aborts
the real run with a non-zero status before the rename/snapshot/set-default
sequence begins: the subvolume table and default subvolume are unchanged and
the trace holds no subvolume mutation. -/
theorem C2_prefail_no_subvol_mutation (mp sm ss : String)
    (dev : Option String) (snap_id : String) (fs : FS) (flt : Faults)
    (nowUTC : String) (tzConv : String → String) (fuel : Nat)
    (L : List String) (num : String) (srcRec : SnapshotRecord) :
    (fs.isdir mp = false → flt.mkdirFails = true →
      AbortedBeforeRepositioning
        (pymainRun ⟨some mp, some sm, some ss, dev⟩ snap_id false
          (.text "CONFIRM") fs flt nowUTC tzConv fuel) fs) ∧
    (fs.isdir mp = true → mp ∉ fs.mounts →
      flt.mountFails = true →
      AbortedBeforeRepositioning
        (pymainRun ⟨some mp, some sm, some ss, dev⟩ snap_id false
          (.text "CONFIRM") fs flt nowUTC tzConv fuel) fs) ∧
    (fs.isdir mp = true → mp ∈ fs.mounts →
      lookupStr fs.listings "/.snapshots" = none →
      AbortedBeforeRepositioning
        (pymainRun ⟨some mp, some sm, some ss, dev⟩ snap_id false
          (.text "CONFIRM") fs flt nowUTC tzConv fuel) fs) ∧
    (fs.isdir mp = true → mp ∈ fs.mounts →
      lookupStr fs.listings "/.snapshots" = some L →
      getNextSnapshotNumber L fuel = some num →
      fs.isdir (pathJoin (pathJoin mp ss) (pathJoin (pathJoin mp ss) num)) =
        true →
      lookupStr fs.files ("/.snapshots/" ++ snap_id ++ "/info.xml") = none →
      AbortedBeforeRepositioning
        (pymainRun ⟨some mp, some sm, some ss, dev⟩ snap_id false
          (.text "CONFIRM") fs flt nowUTC tzConv fuel) fs) ∧
    (fs.isdir mp = true → mp ∈ fs.mounts →
      lookupStr fs.listings "/.snapshots" = some L →
      getNextSnapshotNumber L fuel = some num →
      fs.isdir (pathJoin (pathJoin mp ss) (pathJoin (pathJoin mp ss) num)) =
        true →
      lookupStr fs.files ("/.snapshots/" ++ snap_id ++ "/info.xml") =
        some srcRec →
      flt.writeFails = true →
      AbortedBeforeRepositioning
        (pymainRun ⟨some mp, some sm, some ss, dev⟩ snap_id false
          (.text "CONFIRM") fs flt nowUTC tzConv fuel) fs) ∧
    (fs.isdir mp = true → mp ∈ fs.mounts →
      lookupStr fs.listings "/.snapshots" = some L →
      getNextSnapshotNumber L fuel = some num →
      fs.isdir (pathJoin (pathJoin mp ss) (pathJoin (pathJoin mp ss) num)) =
        false →
      flt.mkdirFails = true →
      AbortedBeforeRepositioning
        (pymainRun ⟨some mp, some sm, some ss, dev⟩ snap_id false
          (.text "CONFIRM") fs flt nowUTC tzConv fuel) fs) := by
  refine ⟨?_, ?_, ?_, ?_, ?_, ?_⟩
  · intro h1 h2
    simp [AbortedBeforeRepositioning, pymainRun, pymainBodyTry,
      mount_subvol_id5, ensure_dir, pyExitCode, Event.isSubvolMutation,
      h1, h2]
  · intro h1 h2 h3
    simp [AbortedBeforeRepositioning, pymainRun, pymainBodyTry,
      mount_subvol_id5, ensure_dir, pyExitCode, Event.isSubvolMutation,
      h1, h2, h3]
  · intro h1 h2 h3
    simp [AbortedBeforeRepositioning, pymainRun, pymainBodyTry,
      mount_subvol_id5, ensure_dir, getNextSnapshotNumberFS, pyExitCode,
      Event.isSubvolMutation, h1, h2, h3]
  · intro h1 h2 h3 h4 h5 h6
    simp [AbortedBeforeRepositioning, pymainRun, pymainBodyTry,
      mount_subvol_id5, ensure_dir, getNextSnapshotNumberFS,
      createNextSubvolumeNumber, generateXML, pyExitCode,
      Event.isSubvolMutation, h1, h2, h3, h4, h5, h6]
  · intro h1 h2 h3 h4 h5 h6 h7
    simp [AbortedBeforeRepositioning, pymainRun, pymainBodyTry,
      mount_subvol_id5, ensure_dir, getNextSnapshotNumberFS,
      createNextSubvolumeNumber, generateXML, pyExitCode,
      Event.isSubvolMutation, h1, h2, h3, h4, h5, h6, h7]
  · intro h1 h2 h3 h4 h5 h6
    simp [AbortedBeforeRepositioning, pymainRun, pymainBodyTry,
      mount_subvol_id5, ensure_dir, getNextSnapshotNumberFS,
      createNextSubvolumeNumber, pyExitCode, Event.isSubvolMutation,
      h1, h2, h3, h4, h5, h6]

/-- C2 witness: a concrete run whose `/.snapshots` listing is unavailable
exits 1 with the subvolume table and default subvolume untouched and no
subvolume mutation in the trace. -/
theorem C2_prefail_no_subvol_mutation_witness :
    AbortedBeforeRepositioning
      (pymainRun ⟨some "/btrfsroot", some "@", some "@snapshots",
        some "/dev/sda2"⟩ "5" false (.text "CONFIRM")
        { fs0 with listings := [] } flt0 nowUTC0 tzConv0 10)
      { fs0 with listings := [] } :=
  (C2_prefail_no_subvol_mutation "/btrfsroot" "@" "@snapshots"
    (some "/dev/sda2") "5" { fs0 with listings := [] } flt0 nowUTC0 tzConv0
    10 [] "" rec5).2.2.1 (by decide) (by decide) (by decide)

/-! ## Claim C9: the descriptor record -/

theorem ensure_dir_files (fs : FS) (flt : Faults) (p : String) (d : Bool) :
    (ensure_dir fs flt p d).2.1.files = fs.files := by
  unfold ensure_dir
  split
  · split
    · rfl
    · split <;> rfl
  · rfl

theorem mount_subvol_id5_files (fs : FS) (flt : Faults) (t : String)
    (s : Option String) (d : Bool) :
    (mount_subvol_id5 fs flt t s d).2.1.files = fs.files := by
  unfold mount_subvol_id5
  rcases he : ensure_dir fs flt t d with ⟨r1, fs1, ev1⟩
  have h1 := ensure_dir_files fs flt t d
  rw [he] at h1
  cases r1 with
  | error e => exact h1
  | ok u =>
    dsimp only
    split
    · split
      · exact h1
      · split <;> exact h1
    · exact h1

theorem rollbackCompensate_files (fs : FS) (ev : List Event) (m nn : String)
    (d : Bool) :
    (rollbackCompensate fs ev m nn d).2.1.files = fs.files := by
  unfold rollbackCompensate
  split
  · rfl
  · split
    · rfl
    · split
      · rfl
      · rfl

theorem rollback_files (fs : FS) (flt : Faults) (m nn src : String)
    (dev : Option String) (d : Bool) :
    (rollback fs flt m nn src dev d).2.1.files = fs.files := by
  unfold rollback
  split
  · rfl
  · dsimp only
    cases hm : lookupStr fs.subvols m with
    | none => rfl
    | some v =>
      dsimp only
      cases hsrc : lookupStr ((nn, v) :: eraseKey fs.subvols m) src with
      | none => exact rollbackCompensate_files _ _ _ _ _
      | some w =>
        dsimp only
        split
        · exact rollbackCompensate_files _ _ _ _ _
        · split
          · exact rollbackCompensate_files _ _ _ _ _
          · rfl

theorem generateXML_files (fs : FS) (flt : Faults)
    (file_name num src_id nowUTC : String) (tzConv : String → String)
    (d : Bool) :
    (generateXML fs flt file_name num src_id nowUTC tzConv d).2.1.files =
      fs.files ∨
    ∃ srcRec,
      lookupStr fs.files ("/.snapshots/" ++ src_id ++ "/info.xml") =
        some srcRec ∧
      (generateXML fs flt file_name num src_id nowUTC tzConv d).2.1.files =
        (file_name, generateXMLRecord nowUTC num src_id (tzConv srcRec.date))
          :: fs.files := by
  unfold generateXML
  dsimp only
  cases h : lookupStr fs.files ("/.snapshots/" ++ src_id ++ "/info.xml") with
  | none => left; rfl
  | some srcRec =>
    dsimp only
    split
    · left; rfl
    · split
      · left; rfl
      · right; exact ⟨srcRec, rfl, rfl⟩

/-- The only file the `try:` block ever writes is the new descriptor, at
`<mountpoint/subvol_snapshots>/<num>/info.xml`, built by
`generateXMLRecord` from the source descriptor's date. -/
theorem pymainBodyTry_files (mp sm ss : String) (dev : Option String)
    (snap_id : String) (d : Bool) (fs : FS) (flt : Faults) (nowUTC : String)
    (tzConv : String → String) (fuel : Nat) :
    match pymainBodyTry mp sm ss dev snap_id d fs flt nowUTC tzConv fuel with
    | none => True
    | some r =>
      r.2.1.files = fs.files ∨
      ∃ num srcRec,
        lookupStr fs.files ("/.snapshots/" ++ snap_id ++ "/info.xml") =
          some srcRec ∧
        r.2.1.files =
          (pathJoin (pathJoin (pathJoin mp ss) num) "info.xml",
            generateXMLRecord nowUTC num snap_id (tzConv srcRec.date))
            :: fs.files := by
  unfold pymainBodyTry
  rcases hmo : mount_subvol_id5 fs flt mp dev d with ⟨r1, fs1, ev1⟩
  have h1 := mount_subvol_id5_files fs flt mp dev d
  rw [hmo] at h1
  cases r1 with
  | error e1 => exact Or.inl h1
  | ok u =>
    dsimp only
    rcases hg : getNextSnapshotNumberFS fs1 fuel with ⟨res, evA⟩
    cases res with
    | error e2 => exact Or.inl h1
    | ok onum =>
      cases onum with
      | none => trivial
      | some num =>
        dsimp only
        rcases hc : createNextSubvolumeNumber fs1 flt mp ss
            (pathJoin (pathJoin mp ss) num) d with ⟨r2, fs2, ev2⟩
        have h2 : fs2.files = fs.files := by
          have h2a := ensure_dir_files fs1 flt
            (pathJoin (pathJoin mp ss) (pathJoin (pathJoin mp ss) num)) d
          rw [show createNextSubvolumeNumber fs1 flt mp ss
              (pathJoin (pathJoin mp ss) num) d =
              ensure_dir fs1 flt
                (pathJoin (pathJoin mp ss) (pathJoin (pathJoin mp ss) num)) d
              from rfl] at hc
          rw [hc] at h2a
          rw [h2a, h1]
        cases r2 with
        | error e3 => exact Or.inl h2
        | ok u2 =>
          dsimp only
          rcases hx : generateXML fs2 flt
              (pathJoin (pathJoin (pathJoin mp ss) num) "info.xml") num
              snap_id nowUTC tzConv d with ⟨r3, fs3, ev3⟩
          have h3 := generateXML_files fs2 flt
            (pathJoin (pathJoin (pathJoin mp ss) num) "info.xml") num
            snap_id nowUTC tzConv d
          rw [hx] at h3
          rw [h2] at h3
          cases r3 with
          | error e4 =>
            rcases h3 with h3 | ⟨srcRec, hsrc, hfiles⟩
            · exact Or.inl h3
            · exact Or.inr ⟨num, srcRec, hsrc, hfiles⟩
          | ok u3 =>
            dsimp only
            rcases hr : rollback fs3 flt (pathJoin mp sm)
                (pathJoin (pathJoin (pathJoin mp ss) num) "snapshot")
                (pathJoin (pathJoin (pathJoin mp ss) snap_id) "snapshot") dev
                d with ⟨r4, fs4, ev4⟩
            have h4 := rollback_files fs3 flt (pathJoin mp sm)
              (pathJoin (pathJoin (pathJoin mp ss) num) "snapshot")
              (pathJoin (pathJoin (pathJoin mp ss) snap_id) "snapshot") dev d
            rw [hr] at h4
            dsimp only
            rw [h4]
            rcases h3 with h3 | ⟨srcRec, hsrc, hfiles⟩
            · exact Or.inl h3
            · exact Or.inr ⟨num, srcRec, hsrc, hfiles⟩

/-- C9: every descriptor record the system writes has `type` fixed to
`"single"`, `cleanup` fixed to `"number"`, `date` the current UTC time, a
`description` embedding the source snapshot id and the source's creation
time converted to local time, and a `num` equal to the name of the snapshot
directory the descriptor's file is stored under: a run either leaves the
descriptor files unchanged, or adds exactly one record, stored at
`<snapshots-dir>/<num>/info.xml` with that same `num` in its `num` field. -/
theorem C9_descriptor_record_invariants (mp sm ss : String)
    (dev : Option String) (snap_id : String) (dry_run : Bool)
    (inp : ConfirmInput) (fs : FS) (flt : Faults) (nowUTC : String)
    (tzConv : String → String) (fuel : Nat)
    (anyNow anyNum anySrc anyDate : String) :
    ((generateXMLRecord anyNow anyNum anySrc anyDate).type_ = "single" ∧
     (generateXMLRecord anyNow anyNum anySrc anyDate).cleanup = "number" ∧
     (generateXMLRecord anyNow anyNum anySrc anyDate).num = anyNum ∧
     (generateXMLRecord anyNow anyNum anySrc anyDate).date = anyNow ∧
     (generateXMLRecord anyNow anyNum anySrc anyDate).description =
       "snapper-rollback: Rollback to snapshot #" ++ anySrc ++
         " (snapshot creation date: " ++ anyDate ++ ")") ∧
    (match pymainRun ⟨some mp, some sm, some ss, dev⟩ snap_id dry_run inp fs
        flt nowUTC tzConv fuel with
     | none => True
     | some r =>
       r.2.1.files = fs.files ∨
       ∃ num srcRec,
         lookupStr fs.files ("/.snapshots/" ++ snap_id ++ "/info.xml") =
           some srcRec ∧
         r.2.1.files =
           (pathJoin (pathJoin (pathJoin mp ss) num) "info.xml",
             generateXMLRecord nowUTC num snap_id (tzConv srcRec.date))
             :: fs.files) := by
  refine ⟨⟨rfl, rfl, rfl, rfl, rfl⟩, ?_⟩
  unfold pymainRun
  dsimp only
  cases inp with
  | interrupt => exact Or.inl rfl
  | text confirmation =>
    dsimp only
    by_cases hc : (confirmation != "CONFIRM") = true
    · rw [if_pos hc]
      exact Or.inl rfl
    · rw [if_neg hc]
      have hb := pymainBodyTry_files mp sm ss dev snap_id dry_run fs flt
        nowUTC tzConv fuel
      rcases hbody : pymainBodyTry mp sm ss dev snap_id dry_run fs flt
          nowUTC tzConv fuel with _ | ⟨r, fs2, ev⟩
      · trivial
      · rw [hbody] at hb
        cases r with
        | ok u => exact hb
        | error err =>
          cases err with
          | permissionError s => exact hb
          | configError => exact hb
          | fileNotFound p => exact hb
          | btrfsError => exact hb
          | osError s => exact hb
          | systemExit c => exact hb

/-! ## Rollback outcome lemmas (for claims C8 and C10) -/

/-- The compensation handler returns normally whenever something is at the
rollback-target path (or no compensation is needed at all). -/
theorem rollbackCompensate_ok (fs : FS) (ev : List Event) (m nn : String)
    (h : (lookupStr fs.subvols nn).isSome = true) :
    (rollbackCompensate fs ev m nn false).1 = .ok () := by
  unfold rollbackCompensate
  split
  · rfl
  · dsimp only
    rw [if_neg (by simp : ¬ (false = true))]
    cases hl : lookupStr fs.subvols nn with
    | none => rw [hl] at h; simp at h
    | some v => rfl

/-- A real `rollback` with nothing at the main path logs the fatal
diagnostic and returns normally (the `FileNotFoundError` is caught). -/
theorem rollback_main_missing (fs : FS) (flt : Faults) (m nn src : String)
    (dev : Option String) (hmn : lookupStr fs.subvols m = none) :
    rollback fs flt m nn src dev false =
      (.ok (), fs, [.logFatal ("Missing " ++ m ++ ": Is " ++ devStr dev ++
        " mounted with the option subvolid=5?")]) := by
  unfold rollback
  rw [if_neg (by simp : ¬ (false = true)), hmn]

/-- A real `rollback` whose snapshot-create step raises returns normally
(the `BtrfsUtilError` is caught and compensated). -/
theorem rollback_snapfail_ok (fs : FS) (flt : Faults) (m nn src : String)
    (dev : Option String) (v : Nat)
    (hmain : lookupStr fs.subvols m = some v)
    (hfail : flt.snapshotFails = true) :
    (rollback fs flt m nn src dev false).1 = .ok () := by
  unfold rollback
  rw [if_neg (by simp : ¬ (false = true)), hmain]
  dsimp only
  have hnn : (lookupStr ((nn, v) :: eraseKey fs.subvols m) nn).isSome =
      true := by
    rw [lookupStr_cons, if_pos rfl]
    rfl
  cases hsrc : lookupStr ((nn, v) :: eraseKey fs.subvols m) src with
  | none => exact rollbackCompensate_ok _ _ _ _ hnn
  | some w =>
    dsimp only
    rw [hfail]
    rw [if_pos (by simp)]
    exact rollbackCompensate_ok _ _ _ _ hnn

/-- The compensation handler does nothing — and returns normally — when the
main path is (still) occupied. -/
theorem rollbackCompensate_isdir_ok (fs : FS) (ev : List Event)
    (m nn : String) (d : Bool) (h : fs.isdir m = true) :
    rollbackCompensate fs ev m nn d = (.ok (), fs, ev) := by
  unfold rollbackCompensate
  rw [if_pos h]

/-- A real `rollback` whose set-default step raises returns normally: the
`BtrfsUtilError` is caught, and since the freshly created snapshot occupies
the main path (`isdir` is true) no compensating rename is attempted. -/
theorem rollback_setdefaultfail_ok (fs : FS) (flt : Faults)
    (m nn src : String) (dev : Option String) (v w : Nat)
    (hmain : lookupStr fs.subvols m = some v)
    (hsrc : lookupStr fs.subvols src = some w) (hsm : src ≠ m) (hnm : nn ≠ m)
    (hmd : m ∉ fs.dirs) (hsf : flt.snapshotFails = false)
    (hdf : flt.setDefaultFails = true) :
    (rollback fs flt m nn src dev false).1 = .ok () := by
  unfold rollback
  rw [if_neg (by simp : ¬ (false = true)), hmain]
  dsimp only
  cases hsrc2 : lookupStr ((nn, v) :: eraseKey fs.subvols m) src with
  | none =>
    exfalso
    rw [lookupStr_cons] at hsrc2
    by_cases hns : nn = src
    · rw [if_pos hns] at hsrc2
      exact Option.noConfusion hsrc2
    · rw [if_neg hns, lookupStr_eraseKey, if_neg hsm, hsrc] at hsrc2
      exact Option.noConfusion hsrc2
  | some x =>
    dsimp only
    have hid : FS.isdir
        { fs with subvols := (nn, v) :: eraseKey fs.subvols m } m =
        false := by
      simp [FS.isdir, lookupStr_cons, if_neg hnm, lookupStr_eraseKey, hmd]
    rw [hsf, hid]
    rw [if_neg (by simp)]
    rw [hdf, if_pos rfl]
    rw [rollbackCompensate_isdir_ok]
    simp [FS.isdir, lookupStr_cons]

/-- A fault-free real `rollback` with all paths in place commits and returns
normally. -/
theorem rollback_success_ok (fs : FS) (flt : Faults) (m nn src : String)
    (dev : Option String) (v w : Nat)
    (hmain : lookupStr fs.subvols m = some v)
    (hsrc : lookupStr fs.subvols src = some w) (hsm : src ≠ m) (hnm : nn ≠ m)
    (hmd : m ∉ fs.dirs) (hsf : flt.snapshotFails = false)
    (hdf : flt.setDefaultFails = false) :
    (rollback fs flt m nn src dev false).1 = .ok () := by
  unfold rollback
  rw [if_neg (by simp : ¬ (false = true)), hmain]
  dsimp only
  cases hsrc2 : lookupStr ((nn, v) :: eraseKey fs.subvols m) src with
  | none =>
    exfalso
    rw [lookupStr_cons] at hsrc2
    by_cases hns : nn = src
    · rw [if_pos hns] at hsrc2
      exact Option.noConfusion hsrc2
    · rw [if_neg hns, lookupStr_eraseKey, if_neg hsm, hsrc] at hsrc2
      exact Option.noConfusion hsrc2
  | some x =>
    dsimp only
    have hid : FS.isdir
        { fs with subvols := (nn, v) :: eraseKey fs.subvols m } m =
        false := by
      simp [FS.isdir, lookupStr_cons, if_neg hnm, lookupStr_eraseKey, hmd]
    rw [hsf, hid]
    rw [if_neg (by simp)]
    rw [hdf, if_neg (by simp)]

/-- Once the pre-steps all succeed, the process exit status is 0 exactly when
`rollback` (applied to the filesystem holding the freshly written
descriptor) returns normally. -/
theorem pymain_exit_of_rollback_ok (mp sm ss : String) (dev : Option String)
    (snap_id : String) (fs : FS) (flt : Faults) (nowUTC : String)
    (tzConv : String → String) (fuel : Nat) (L : List String) (num : String)
    (srcRec : SnapshotRecord)
    (h1 : fs.isdir mp = true) (h2 : mp ∈ fs.mounts)
    (h3 : lookupStr fs.listings "/.snapshots" = some L)
    (h4 : getNextSnapshotNumber L fuel = some num)
    (h5 : fs.isdir
      (pathJoin (pathJoin mp ss) (pathJoin (pathJoin mp ss) num)) = true)
    (h6 : lookupStr fs.files ("/.snapshots/" ++ snap_id ++ "/info.xml") =
      some srcRec)
    (h7 : flt.writeFails = false)
    (hrb : (rollback
      { fs with files := (pathJoin (pathJoin (pathJoin mp ss) num)
          "info.xml",
        generateXMLRecord nowUTC num snap_id (tzConv srcRec.date)) ::
          fs.files }
      flt (pathJoin mp sm)
      (pathJoin (pathJoin (pathJoin mp ss) num) "snapshot")
      (pathJoin (pathJoin (pathJoin mp ss) snap_id) "snapshot") dev
      false).1 = .ok ()) :
    pymainExitCode ⟨some mp, some sm, some ss, dev⟩ snap_id false
      (.text "CONFIRM") fs flt nowUTC tzConv fuel = some 0 := by
  rcases hr : rollback
      { fs with files := (pathJoin (pathJoin (pathJoin mp ss) num)
          "info.xml",
        generateXMLRecord nowUTC num snap_id (tzConv srcRec.date)) ::
          fs.files }
      flt (pathJoin mp sm)
      (pathJoin (pathJoin (pathJoin mp ss) num) "snapshot")
      (pathJoin (pathJoin (pathJoin mp ss) snap_id) "snapshot") dev
      false with ⟨r4, fs4, ev4⟩
  rw [hr] at hrb
  dsimp only at hrb
  subst hrb
  simp [pymainExitCode, pymainRun, pymainBodyTry, mount_subvol_id5,
    ensure_dir, getNextSnapshotNumberFS, createNextSubvolumeNumber,
    generateXML, pyExitCode, h1, h2, h3, h4, h5, h6, h7, hr]

/-! ## Claim C10: caught rollback failures still exit 0 -/

/-- C10: in every real run whose pre-steps succeed, if the repositioning then
fails — the main subvolume is missing, or the snapshot-create step raises a
btrfs-utility error (the compensating rename is performed), or the
set-default step raises a btrfs-utility error (the main path is occupied by
the fresh snapshot, so no compensating rename is performed) — the exception
is caught inside the `rollback` routine and the process still terminates with
exit status 0, reporting success at the process level despite the failed
rollback. -/
theorem C10_caught_rollback_errors_exit_zero (mp sm ss : String)
    (dev : Option String) (snap_id : String) (fs : FS) (flt : Faults)
    (nowUTC : String) (tzConv : String → String) (fuel : Nat)
    (L : List String) (num : String) (srcRec : SnapshotRecord) (v w : Nat)
    (h1 : fs.isdir mp = true) (h2 : mp ∈ fs.mounts)
    (h3 : lookupStr fs.listings "/.snapshots" = some L)
    (h4 : getNextSnapshotNumber L fuel = some num)
    (h5 : fs.isdir
      (pathJoin (pathJoin mp ss) (pathJoin (pathJoin mp ss) num)) = true)
    (h6 : lookupStr fs.files ("/.snapshots/" ++ snap_id ++ "/info.xml") =
      some srcRec)
    (h7 : flt.writeFails = false) :
    (lookupStr fs.subvols (pathJoin mp sm) = none →
      pymainExitCode ⟨some mp, some sm, some ss, dev⟩ snap_id false
        (.text "CONFIRM") fs flt nowUTC tzConv fuel = some 0) ∧
    (lookupStr fs.subvols (pathJoin mp sm) = some v →
      flt.snapshotFails = true →
      pymainExitCode ⟨some mp, some sm, some ss, dev⟩ snap_id false
        (.text "CONFIRM") fs flt nowUTC tzConv fuel = some 0) ∧
    (lookupStr fs.subvols (pathJoin mp sm) = some v →
      lookupStr fs.subvols
        (pathJoin (pathJoin (pathJoin mp ss) snap_id) "snapshot") = some w →
      pathJoin (pathJoin (pathJoin mp ss) snap_id) "snapshot" ≠
        pathJoin mp sm →
      pathJoin (pathJoin (pathJoin mp ss) num) "snapshot" ≠ pathJoin mp sm →
      pathJoin mp sm ∉ fs.dirs →
      flt.snapshotFails = false → flt.setDefaultFails = true →
      pymainExitCode ⟨some mp, some sm, some ss, dev⟩ snap_id false
        (.text "CONFIRM") fs flt nowUTC tzConv fuel = some 0) := by
  refine ⟨?_, ?_, ?_⟩
  · intro hmn
    refine pymain_exit_of_rollback_ok mp sm ss dev snap_id fs flt nowUTC
      tzConv fuel L num srcRec h1 h2 h3 h4 h5 h6 h7 ?_
    rw [rollback_main_missing]
    exact hmn
  · intro hmain hfail
    refine pymain_exit_of_rollback_ok mp sm ss dev snap_id fs flt nowUTC
      tzConv fuel L num srcRec h1 h2 h3 h4 h5 h6 h7 ?_
    exact rollback_snapfail_ok
      { fs with files := (pathJoin (pathJoin (pathJoin mp ss) num) "info.xml", generateXMLRecord nowUTC num snap_id (tzConv srcRec.date)) :: fs.files }
      flt (pathJoin mp sm)
      (pathJoin (pathJoin (pathJoin mp ss) num) "snapshot")
      (pathJoin (pathJoin (pathJoin mp ss) snap_id) "snapshot") dev v hmain
      hfail
  · intro hmain hsrcv hsm hnm hmd hsf hdf
    refine pymain_exit_of_rollback_ok mp sm ss dev snap_id fs flt nowUTC
      tzConv fuel L num srcRec h1 h2 h3 h4 h5 h6 h7 ?_
    exact rollback_setdefaultfail_ok
      { fs with files := (pathJoin (pathJoin (pathJoin mp ss) num) "info.xml", generateXMLRecord nowUTC num snap_id (tzConv srcRec.date)) :: fs.files }
      flt (pathJoin mp sm)
      (pathJoin (pathJoin (pathJoin mp ss) num) "snapshot")
      (pathJoin (pathJoin (pathJoin mp ss) snap_id) "snapshot") dev v w
      hmain hsrcv hsm hnm hmd hsf hdf

/-- A variant of the healthy fixture in which the directory for the next
snapshot id (6) already exists. -/
def fs0dir6 : FS := { fs0 with dirs := "/btrfsroot/@snapshots/6" :: fs0.dirs }

/-- C10 witness: concrete healthy runs with an injected snapshot-create
failure (compensated) and an injected set-default failure (uncompensated)
both still exit 0. -/
theorem C10_caught_rollback_errors_exit_zero_witness :
    pymainExitCode ⟨some "/btrfsroot", some "@", some "@snapshots",
      some "/dev/sda2"⟩ "5" false (.text "CONFIRM") fs0dir6
      { flt0 with snapshotFails := true } nowUTC0 tzConv0 10 = some 0 ∧
    pymainExitCode ⟨some "/btrfsroot", some "@", some "@snapshots",
      some "/dev/sda2"⟩ "5" false (.text "CONFIRM") fs0dir6
      { flt0 with setDefaultFails := true } nowUTC0 tzConv0 10 = some 0 :=
  ⟨(C10_caught_rollback_errors_exit_zero "/btrfsroot" "@" "@snapshots"
      (some "/dev/sda2") "5" fs0dir6 { flt0 with snapshotFails := true }
      nowUTC0 tzConv0 10 ["2", "5"] "6" rec5 100 5 (by decide) (by decide)
      (by decide) (by decide) (by decide) (by decide) rfl).2.1 (by decide)
      rfl,
   (C10_caught_rollback_errors_exit_zero "/btrfsroot" "@" "@snapshots"
      (some "/dev/sda2") "5" fs0dir6 { flt0 with setDefaultFails := true }
      nowUTC0 tzConv0 10 ["2", "5"] "6" rec5 100 5 (by decide) (by decide)
      (by decide) (by decide) (by decide) (by decide) rfl).2.2 (by decide)
      (by decide) (by decide) (by decide) (by decide) rfl rfl⟩

/-! ## Claim C8: process exit statuses -/

/-- C8 (amended): the process terminates with non-zero status on
configuration errors (missing keys), on operator interrupt at the
confirmation prompt, on mount failures, and on permission errors while
writing the descriptor; it terminates with zero status on a committed
rollback — but also with zero on a declined typed confirmation
(`sys.exit(0)` after the fatal log) and with zero when the repositioning
fails with a missing main subvolume or a btrfs error, both caught inside the
rollback routine.  (The original claim's "non-zero on declined confirmation",
"non-zero on missing-main-subvolume errors" and "zero on operator
cancellation" are each refuted by the counterexample.) -/
theorem C8_exit_status_behavior (mp sm ss : String) (dev : Option String)
    (snap_id s : String) (dr : Bool) (inp : ConfirmInput) (fs : FS)
    (flt : Faults) (nowUTC : String) (tzConv : String → String) (fuel : Nat)
    (L : List String) (num : String) (srcRec : SnapshotRecord) (v w : Nat) :
    (pymainExitCode ⟨none, some sm, some ss, dev⟩ snap_id dr inp fs flt
      nowUTC tzConv fuel = some 1) ∧
    (pymainExitCode ⟨some mp, some sm, some ss, dev⟩ snap_id dr .interrupt
      fs flt nowUTC tzConv fuel = some 1) ∧
    (s ≠ "CONFIRM" →
      pymainExitCode ⟨some mp, some sm, some ss, dev⟩ snap_id dr (.text s)
        fs flt nowUTC tzConv fuel = some 0) ∧
    (fs.isdir mp = true → mp ∉ fs.mounts → flt.mountFails = true →
      pymainExitCode ⟨some mp, some sm, some ss, dev⟩ snap_id false
        (.text "CONFIRM") fs flt nowUTC tzConv fuel = some 1) ∧
    (fs.isdir mp = true → mp ∈ fs.mounts →
      lookupStr fs.listings "/.snapshots" = some L →
      getNextSnapshotNumber L fuel = some num →
      fs.isdir (pathJoin (pathJoin mp ss) (pathJoin (pathJoin mp ss) num)) =
        true →
      lookupStr fs.files ("/.snapshots/" ++ snap_id ++ "/info.xml") =
        some srcRec →
      flt.writeFails = true →
      pymainExitCode ⟨some mp, some sm, some ss, dev⟩ snap_id false
        (.text "CONFIRM") fs flt nowUTC tzConv fuel = some 1) ∧
    (fs.isdir mp = true → mp ∈ fs.mounts →
      lookupStr fs.listings "/.snapshots" = some L →
      getNextSnapshotNumber L fuel = some num →
      fs.isdir (pathJoin (pathJoin mp ss) (pathJoin (pathJoin mp ss) num)) =
        true →
      lookupStr fs.files ("/.snapshots/" ++ snap_id ++ "/info.xml") =
        some srcRec →
      flt.writeFails = false →
      lookupStr fs.subvols (pathJoin mp sm) = some v →
      lookupStr fs.subvols
        (pathJoin (pathJoin (pathJoin mp ss) snap_id) "snapshot") = some w →
      pathJoin (pathJoin (pathJoin mp ss) snap_id) "snapshot" ≠
        pathJoin mp sm →
      pathJoin (pathJoin (pathJoin mp ss) num) "snapshot" ≠ pathJoin mp sm →
      pathJoin mp sm ∉ fs.dirs →
      flt.snapshotFails = false → flt.setDefaultFails = false →
      pymainExitCode ⟨some mp, some sm, some ss, dev⟩ snap_id false
        (.text "CONFIRM") fs flt nowUTC tzConv fuel = some 0) ∧
    (fs.isdir mp = true → mp ∈ fs.mounts →
      lookupStr fs.listings "/.snapshots" = some L →
      getNextSnapshotNumber L fuel = some num →
      fs.isdir (pathJoin (pathJoin mp ss) (pathJoin (pathJoin mp ss) num)) =
        true →
      lookupStr fs.files ("/.snapshots/" ++ snap_id ++ "/info.xml") =
        some srcRec →
      flt.writeFails = false →
      lookupStr fs.subvols (pathJoin mp sm) = none →
      pymainExitCode ⟨some mp, some sm, some ss, dev⟩ snap_id false
        (.text "CONFIRM") fs flt nowUTC tzConv fuel = some 0) ∧
    (fs.isdir mp = true → mp ∈ fs.mounts →
      lookupStr fs.listings "/.snapshots" = some L →
      getNextSnapshotNumber L fuel = some num →
      fs.isdir (pathJoin (pathJoin mp ss) (pathJoin (pathJoin mp ss) num)) =
        true →
      lookupStr fs.files ("/.snapshots/" ++ snap_id ++ "/info.xml") =
        some srcRec →
      flt.writeFails = false →
      lookupStr fs.subvols (pathJoin mp sm) = some v →
      flt.snapshotFails = true →
      pymainExitCode ⟨some mp, some sm, some ss, dev⟩ snap_id false
        (.text "CONFIRM") fs flt nowUTC tzConv fuel = some 0) := by
  refine ⟨rfl, rfl, ?_, ?_, ?_, ?_, ?_, ?_⟩
  · intro h
    simp [pymainExitCode, pymainRun, pyExitCode, h]
  · intro h1 h2 h3
    simp [pymainExitCode, pymainRun, pymainBodyTry, mount_subvol_id5,
      ensure_dir, pyExitCode, h1, h2, h3]
  · intro h1 h2 h3 h4 h5 h6 h7
    simp [pymainExitCode, pymainRun, pymainBodyTry, mount_subvol_id5,
      ensure_dir, getNextSnapshotNumberFS, createNextSubvolumeNumber,
      generateXML, pyExitCode, h1, h2, h3, h4, h5, h6, h7]
  · intro h1 h2 h3 h4 h5 h6 h7 hmain hsrcv hsm hnm hmd hsf hdf
    refine pymain_exit_of_rollback_ok mp sm ss dev snap_id fs flt nowUTC
      tzConv fuel L num srcRec h1 h2 h3 h4 h5 h6 h7 ?_
    exact rollback_success_ok
      { fs with files := (pathJoin (pathJoin (pathJoin mp ss) num) "info.xml", generateXMLRecord nowUTC num snap_id (tzConv srcRec.date)) :: fs.files }
      flt (pathJoin mp sm)
      (pathJoin (pathJoin (pathJoin mp ss) num) "snapshot")
      (pathJoin (pathJoin (pathJoin mp ss) snap_id) "snapshot") dev v w
      hmain hsrcv hsm hnm hmd hsf hdf
  · intro h1 h2 h3 h4 h5 h6 h7 hmn
    refine pymain_exit_of_rollback_ok mp sm ss dev snap_id fs flt nowUTC
      tzConv fuel L num srcRec h1 h2 h3 h4 h5 h6 h7 ?_
    rw [rollback_main_missing]
    exact hmn
  · intro h1 h2 h3 h4 h5 h6 h7 hmain hfail
    refine pymain_exit_of_rollback_ok mp sm ss dev snap_id fs flt nowUTC
      tzConv fuel L num srcRec h1 h2 h3 h4 h5 h6 h7 ?_
    exact rollback_snapfail_ok
      { fs with files := (pathJoin (pathJoin (pathJoin mp ss) num) "info.xml", generateXMLRecord nowUTC num snap_id (tzConv srcRec.date)) :: fs.files }
      flt (pathJoin mp sm)
      (pathJoin (pathJoin (pathJoin mp ss) num) "snapshot")
      (pathJoin (pathJoin (pathJoin mp ss) snap_id) "snapshot") dev v hmain
      hfail

/-- The healthy fixture with the main subvolume absent (and the next
snapshot-id directory pre-existing). -/
def fs0noMain : FS :=
  { fs0dir6 with subvols := [("/btrfsroot/@snapshots/5/snapshot", 5)] }

/-- C8 counterexample: a declined typed confirmation exits 0 (the claim
demands non-zero), an operator interrupt exits 1 (the claim demands zero for
cancellation before any action), and a run whose main subvolume is missing
exits 0 (the claim demands non-zero). -/
theorem C8_counterexample :
    pymainExitCode cfg0 "5" false (.text "no") fs0 flt0 nowUTC0 tzConv0 10 =
      some 0 ∧
    pymainExitCode cfg0 "5" false .interrupt fs0 flt0 nowUTC0 tzConv0 10 =
      some 1 ∧
    pymainExitCode cfg0 "5" false (.text "CONFIRM") fs0noMain flt0 nowUTC0
      tzConv0 10 = some 0 := by decide

/-- C8 witness: on the healthy fixture, a declined confirmation exits 0, the
interrupt exits 1, and the committed fault-free run exits 0. -/
theorem C8_exit_status_behavior_witness :
    pymainExitCode ⟨some "/btrfsroot", some "@", some "@snapshots",
      some "/dev/sda2"⟩ "5" false (.text "no") fs0dir6 flt0 nowUTC0 tzConv0
      10 = some 0 ∧
    pymainExitCode ⟨some "/btrfsroot", some "@", some "@snapshots",
      some "/dev/sda2"⟩ "5" false .interrupt fs0dir6 flt0 nowUTC0 tzConv0
      10 = some 1 ∧
    pymainExitCode ⟨some "/btrfsroot", some "@", some "@snapshots",
      some "/dev/sda2"⟩ "5" false (.text "CONFIRM") fs0dir6 flt0 nowUTC0
      tzConv0 10 = some 0 :=
  ⟨(C8_exit_status_behavior "/btrfsroot" "@" "@snapshots" (some "/dev/sda2")
      "5" "no" false .interrupt fs0dir6 flt0 nowUTC0 tzConv0 10 ["2", "5"]
      "6" rec5 100 5).2.2.1 (by decide),
   (C8_exit_status_behavior "/btrfsroot" "@" "@snapshots" (some "/dev/sda2")
      "5" "no" false .interrupt fs0dir6 flt0 nowUTC0 tzConv0 10 ["2", "5"]
      "6" rec5 100 5).2.1,
   (C8_exit_status_behavior "/btrfsroot" "@" "@snapshots" (some "/dev/sda2")
      "5" "no" false .interrupt fs0dir6 flt0 nowUTC0 tzConv0 10 ["2", "5"]
      "6" rec5 100 5).2.2.2.2.2.1 (by decide) (by decide) (by decide)
      (by decide) (by decide) (by decide) rfl (by decide) (by decide)
      (by decide) (by decide) (by decide) rfl rfl⟩

end SnapperRollback
